import Mathlib

/-!
# MiniGame-2D: application state and renderer

A shallow embedding of `src/core/App.{h,cpp}`, of
`src/render/d3d11/D3D11Renderer.cpp` with the texture loader it calls, and of
`src/platform/win/MainWin.cpp`.

Conventions of the embedding.
* C++ `float` values are exact rationals (`ℚ`): every comparison and every
  arithmetic step is the exact one; rounding, infinities and NaN are not
  represented.  `int` to `float` conversion is the inclusion of `ℤ` in `ℚ`.
* Pointers (`void*`, `IRenderer2D*`) are natural numbers, `0` being `nullptr`.
* Calls made through the `IRenderer2D` interface are recorded, in order, as a
  list of `RenderCall`s together with the receiving renderer; `App` is
  described with every such call returning.  What `D3D11Renderer` does with a
  call, exceptions included, is `D3D11Renderer.call`.
* A `HRESULT` is an integer; the device hands them to the renderer as inputs.
-/

namespace MiniGame

/-! ## core/App.h -/

/-- The struct `AppConfig` of `App.h`, with its default member values. -/
structure AppConfig where
  width : Int := 1280
  height : Int := 720
  title : String := "MiniGame2D"
  deriving DecidableEq, Repr

/-- The struct `GameState` of `App.h`, with its default member values. -/
structure GameState where
  playerX : ℚ := 200
  playerY : ℚ := 200
  speed : ℚ := 220
  deriving DecidableEq, Repr

/-- One call through the interface `IRenderer2D`, with its arguments. -/
inductive RenderCall where
  | BeginFrame (r g b a : ℚ)
  | DrawQuad (x y w h : ℚ)
  | DrawTexturedQuad (x y w h : ℚ) (texture : Nat)
  | EndFrame
  deriving DecidableEq, Repr

/-- The data members of the class `App`, with their default initialisers. -/
structure App where
  cfg_ : AppConfig
  state_ : GameState := {}
  renderer_ : Nat := 0
  playerTex_ : Nat := 0
  hasTexture_ : Bool := false
  deriving DecidableEq, Repr

/-! ## core/App.cpp -/

/-- The library function `std::clamp(v, lo, hi)`, computed as the library does,
`std::min(std::max(v, lo), hi)`, where `std::max(a, b)` is `b` if `a < b` and
`a` otherwise, and `std::min(a, b)` is `b` if `b < a` and `a` otherwise.  For
`lo <= hi` this is `lo` if `v` is less than `lo`, `hi` if `hi` is less than
`v`, otherwise `v` (`clamp_eq_returns`).  A call with `hi < lo` is outside the
precondition of `std::clamp`; no theorem below promises its value. -/
def clamp (v lo hi : ℚ) : ℚ :=
  let m := if v < lo then lo else v
  if hi < m then hi else m

/-- The constructor `App::App(cfg)`. -/
def App.new (cfg : AppConfig) : App := { cfg_ := cfg }

/-- The method `App::Update(dt)`. -/
def App.Update (a : App) (_dt : ℚ) : App :=
  let playerX := clamp a.state_.playerX 0 ((a.cfg_.width : ℚ) - 64)
  let playerY := clamp a.state_.playerY 0 ((a.cfg_.height : ℚ) - 64)
  { a with state_ := { a.state_ with playerX := playerX, playerY := playerY } }

/-- The method `App::Render()`: the new object and the calls it made, each
paired with the renderer that received it. -/
def App.Render (a : App) : App × List (Nat × RenderCall) :=
  if a.renderer_ = 0 then (a, [])
  else
    let w : ℚ := 96
    let h : ℚ := 96
    let draw :=
      if a.hasTexture_ && a.playerTex_ != 0 then
        RenderCall.DrawTexturedQuad a.state_.playerX a.state_.playerY w h a.playerTex_
      else
        RenderCall.DrawQuad a.state_.playerX a.state_.playerY w h
    (a, [(a.renderer_, RenderCall.BeginFrame (7 / 100) (8 / 100) (1 / 10) 1),
         (a.renderer_, draw),
         (a.renderer_, RenderCall.EndFrame)])

/-- The integer value of a character constant such as `'W'`. -/
def keyCode (c : Char) : Int := Int.ofNat c.toNat

/-- The method `App::OnKey(down, key)`. -/
def App.OnKey (a : App) (down : Bool) (key : Int) : App :=
  let s := a.state_.speed / 60
  if !down then a
  else if key = keyCode 'W' then
    { a with state_ := { a.state_ with playerY := a.state_.playerY - s } }
  else if key = keyCode 'S' then
    { a with state_ := { a.state_ with playerY := a.state_.playerY + s } }
  else if key = keyCode 'A' then
    { a with state_ := { a.state_ with playerX := a.state_.playerX - s } }
  else if key = keyCode 'D' then
    { a with state_ := { a.state_ with playerX := a.state_.playerX + s } }
  else a

/-- The accessor `App::State()`, used to assign the state it refers to. -/
def App.SetState (a : App) (s : GameState) : App := { a with state_ := s }

/-- The method `App::SetRenderer(r)`. -/
def App.SetRenderer (a : App) (r : Nat) : App := { a with renderer_ := r }

/-- The method `App::SetPlayerTexture(texture)`. -/
def App.SetPlayerTexture (a : App) (texture : Nat) : App :=
  { a with playerTex_ := texture, hasTexture_ := texture != 0 }

/-- One use of the public interface of `App`. -/
inductive AppOp where
  | Update (dt : ℚ)
  | Render
  | OnKey (down : Bool) (key : Int)
  | SetState (s : GameState)
  | SetRenderer (r : Nat)
  | SetPlayerTexture (texture : Nat)
  deriving DecidableEq, Repr

/-- The object after one use of its public interface. -/
def App.step (a : App) : AppOp → App
  | .Update dt => a.Update dt
  | .Render => a.Render.1
  | .OnKey down key => a.OnKey down key
  | .SetState s => a.SetState s
  | .SetRenderer r => a.SetRenderer r
  | .SetPlayerTexture t => a.SetPlayerTexture t

/-- The object after a sequence of uses of its public interface. -/
def App.run (a : App) (ops : List AppOp) : App := ops.foldl App.step a

/-- The position lies in `[0, width-64] × [0, height-64]`. -/
def App.InBounds (a : App) : Prop :=
  0 ≤ a.state_.playerX ∧ a.state_.playerX ≤ (a.cfg_.width : ℚ) - 64 ∧
  0 ≤ a.state_.playerY ∧ a.state_.playerY ≤ (a.cfg_.height : ℚ) - 64

instance (a : App) : Decidable a.InBounds := by
  unfold App.InBounds; infer_instance

/-- The calls made through `IRenderer2D` during a sequence of uses of the public
interface of `App`, in the order they are made. -/
def App.calls (a : App) : List AppOp → List (Nat × RenderCall)
  | [] => []
  | op :: ops =>
    (match op with
      | .Render => a.Render.2
      | _ => []) ++ App.calls (a.step op) ops

/-- The calls that the renderer `r` received, among recorded calls. -/
def receivedBy (r : Nat) (cs : List (Nat × RenderCall)) : List RenderCall :=
  (cs.filter (fun c => c.1 == r)).map Prod.snd

/-- The frame protocol of the renderer interface, as a check on a sequence of
calls: `BeginFrame` opens a frame only when none is open, `EndFrame` closes the
open frame, a draw call needs an open frame, and no frame is left open.  The
flag tells whether a frame is open. -/
def frameProtocol : Bool → List RenderCall → Bool
  | inFrame, [] => !inFrame
  | false, .BeginFrame _ _ _ _ :: cs => frameProtocol true cs
  | true, .DrawQuad _ _ _ _ :: cs => frameProtocol true cs
  | true, .DrawTexturedQuad _ _ _ _ _ :: cs => frameProtocol true cs
  | true, .EndFrame :: cs => frameProtocol false cs
  | _, _ => false

/-! ## render/d3d11/D3D11Renderer.{h,cpp}

The Direct3D device is outside the program.  What it returns to the renderer
(the `HRESULT` of each call that can fail) is an input of the model, and what
the renderer asks of the device context is recorded, in order, as a list of
`ContextCall`s.  The contents of the three buffers the renderer owns are part of
its state.  A C++ exception is the `error` of `Except`, carrying `what()`. -/

/-- The struct `VertexPTC` of `D3D11Renderer.h`. -/
structure VertexPTC where
  x : ℚ
  y : ℚ
  u : ℚ
  v : ℚ
  deriving DecidableEq, Repr

/-- The Windows test `FAILED(hr)`: a `HRESULT` is a failure when negative. -/
def FAILED (hr : Int) : Bool := decide (hr < 0)

/-- The helper `ThrowIfFailed(hr, message)`. -/
def ThrowIfFailed (hr : Int) (message : String) : Except String Unit :=
  if FAILED hr then .error message else .ok ()

/-- What `D3DCompile` hands back: its `HRESULT` and the text of the error blob,
when there is one. -/
structure CompileResult where
  hr : Int := 0
  errors : Option String := none
  deriving DecidableEq, Repr

/-- The helper `CompileShader(src, entry, profile)`; the blob it returns is not
looked into, so success is `()`. -/
def CompileShader (res : CompileResult) : Except String Unit := do
  if FAILED res.hr then
    match res.errors with
    | some msg => throw msg
    | none => pure ()
    ThrowIfFailed res.hr "Shader compile failed"
  pure ()

/-- Input and output of the vertex program `VSMain` in `g_ShaderSrc`. -/
structure VSIn where
  pos : ℚ × ℚ
  uv : ℚ × ℚ
  deriving DecidableEq, Repr

/-- Output of the vertex program `VSMain`: a `float4` position and the `uv`. -/
structure VSOut where
  pos : ℚ × ℚ × ℚ × ℚ
  uv : ℚ × ℚ
  deriving DecidableEq, Repr

/-- The struct `ScreenCB`: the two floats `screenSize`; `pad` is never written
nor read. -/
structure ScreenCB where
  screenSize : ℚ × ℚ
  deriving DecidableEq, Repr

/-- The vertex program `VSMain` of `g_ShaderSrc`, run with the constant buffer
`cb` at register `b0`. -/
def VSMain (cb : ScreenCB) (i : VSIn) : VSOut :=
  let ndc : ℚ × ℚ :=
    (i.pos.1 / (cb.screenSize.1 * (1 / 2)) - 1, -(i.pos.2 / (cb.screenSize.2 * (1 / 2)) - 1))
  { pos := (ndc.1, ndc.2, 0, 1), uv := i.uv }

/-- The struct `D3D11_VIEWPORT`, value-initialised. -/
structure D3D11_VIEWPORT where
  TopLeftX : ℚ := 0
  TopLeftY : ℚ := 0
  Width : ℚ := 0
  Height : ℚ := 0
  MinDepth : ℚ := 0
  MaxDepth : ℚ := 0
  deriving DecidableEq, Repr

/-- The two pixel programs of `g_ShaderSrc`. -/
inductive PixelShader where
  | psColor
  | psTex
  deriving DecidableEq, Repr

/-- A call on the device context or the swap chain, with the arguments that vary. -/
inductive ContextCall where
  | OMSetRenderTargets
  | ClearRenderTargetView (r g b a : ℚ)
  | RSSetViewports (viewport : D3D11_VIEWPORT)
  | IASetVertexBuffers (stride offset : Nat)
  | IASetIndexBuffer
  | IASetPrimitiveTopology
  | IASetInputLayout
  | VSSetConstantBuffers
  | VSSetShader
  | PSSetShader (ps : PixelShader)
  | PSSetShaderResources (srv : Nat)
  | PSSetSamplers
  | DrawIndexed (IndexCount StartIndexLocation : Nat) (BaseVertexLocation : Int)
  | Present (SyncInterval : Nat)
  deriving DecidableEq, Repr

/-- The `HRESULT`s the device returns to the constructor of `D3D11Renderer`, one
for each call that is checked, in the order of the calls; `0` is `S_OK`. -/
structure DeviceResults where
  D3D11CreateDevice : Int := 0
  QueryDXGIDevice : Int := 0
  GetAdapter : Int := 0
  GetParent : Int := 0
  CreateSwapChain : Int := 0
  GetBuffer : Int := 0
  CreateRenderTargetView : Int := 0
  CreateVertexBuffer : Int := 0
  CreateIndexBuffer : Int := 0
  CompileVS : CompileResult := {}
  CreateVertexShader : Int := 0
  CreateInputLayout : Int := 0
  CompilePSColor : CompileResult := {}
  CreatePixelShaderColor : Int := 0
  CompilePSTex : CompileResult := {}
  CreatePixelShaderTex : Int := 0
  CreateScreenCB : Int := 0
  CreateSamplerState : Int := 0
  deriving DecidableEq, Repr

/-- The state of a `D3D11Renderer`: its data members that hold values, the
contents of the buffers `vb_`, `ib_` and `g_ScreenCB` (empty or absent until
written), and the calls made so far on the device context. -/
structure D3D11Renderer where
  backBufferW_ : Int := 0
  backBufferH_ : Int := 0
  viewport_ : D3D11_VIEWPORT := {}
  vb_ : List VertexPTC := []
  ib_ : List Nat := []
  g_ScreenCB : Option ScreenCB := none
  context_ : List ContextCall := []
  deriving DecidableEq, Repr

/-- The method `D3D11Renderer::CreateSwapChainAndTargets(hwnd, w, h)`. -/
def D3D11Renderer.CreateSwapChainAndTargets (r : D3D11Renderer) (dev : DeviceResults)
    (w h : Int) : Except String D3D11Renderer := do
  ThrowIfFailed dev.QueryDXGIDevice "Failed to query IDXGIDevice"
  ThrowIfFailed dev.GetAdapter "Failed to get IDXGIAdapter"
  ThrowIfFailed dev.GetParent "Failed to get IDXGIFactory"
  ThrowIfFailed dev.CreateSwapChain "CreateSwapChain failed"
  ThrowIfFailed dev.GetBuffer "Failed to obtain swap chain back buffer"
  ThrowIfFailed dev.CreateRenderTargetView "CreateRenderTargetView failed"
  let viewport : D3D11_VIEWPORT :=
    { TopLeftX := 0, TopLeftY := 0, Width := (w : ℚ), Height := (h : ℚ),
      MinDepth := 0, MaxDepth := 1 }
  pure { r with viewport_ := viewport,
                context_ := r.context_ ++ [ContextCall.RSSetViewports viewport] }

/-- The method `D3D11Renderer::CreatePipeline()`. -/
def D3D11Renderer.CreatePipeline (r : D3D11Renderer) (dev : DeviceResults) :
    Except String D3D11Renderer := do
  let verts : List VertexPTC :=
    [⟨0, 0, 0, 0⟩, ⟨96, 0, 1, 0⟩, ⟨96, 96, 1, 1⟩, ⟨0, 96, 0, 1⟩]
  let indices : List Nat := [0, 1, 2, 0, 2, 3]
  ThrowIfFailed dev.CreateVertexBuffer "CreateBuffer (vertex) failed"
  ThrowIfFailed dev.CreateIndexBuffer "CreateBuffer (index) failed"
  CompileShader dev.CompileVS
  ThrowIfFailed dev.CreateVertexShader "CreateVertexShader failed"
  ThrowIfFailed dev.CreateInputLayout "CreateInputLayout failed"
  CompileShader dev.CompilePSColor
  ThrowIfFailed dev.CreatePixelShaderColor "CreatePixelShader (color) failed"
  CompileShader dev.CompilePSTex
  ThrowIfFailed dev.CreatePixelShaderTex "CreatePixelShader (texture) failed"
  ThrowIfFailed dev.CreateScreenCB "CreateBuffer (ScreenCB) failed"
  ThrowIfFailed dev.CreateSamplerState "CreateSamplerState failed"
  pure { r with vb_ := verts, ib_ := indices, g_ScreenCB := none }

/-- The constructor `D3D11Renderer::D3D11Renderer(hwnd, w, h)`. -/
def D3D11Renderer.new (dev : DeviceResults) (w h : Int) : Except String D3D11Renderer := do
  let r : D3D11Renderer := { backBufferW_ := w, backBufferH_ := h }
  ThrowIfFailed dev.D3D11CreateDevice "D3D11CreateDevice failed"
  let r ← r.CreateSwapChainAndTargets dev w h
  r.CreatePipeline dev

/-- The method `D3D11Renderer::BeginFrame(r, g, b, a)`; `mapResult` is what
`Map` of the constant buffer returns. -/
def D3D11Renderer.BeginFrame (self : D3D11Renderer) (mapResult : Int) (r g b a : ℚ) :
    Except String D3D11Renderer := do
  let ctx := self.context_ ++
    [ContextCall.OMSetRenderTargets, ContextCall.ClearRenderTargetView r g b a]
  ThrowIfFailed mapResult "Map ScreenCB failed"
  let cb : ScreenCB := { screenSize := ((self.backBufferW_ : ℚ), (self.backBufferH_ : ℚ)) }
  pure { self with
    g_ScreenCB := some cb,
    context_ := ctx ++
      [ContextCall.RSSetViewports self.viewport_,
       ContextCall.IASetVertexBuffers 16 0,
       ContextCall.IASetIndexBuffer,
       ContextCall.IASetPrimitiveTopology,
       ContextCall.IASetInputLayout,
       ContextCall.VSSetConstantBuffers,
       ContextCall.VSSetShader] }

/-- The method `D3D11Renderer::DrawQuad(x, y, w, h)`; `mapResult` is what `Map`
of the vertex buffer returns. -/
def D3D11Renderer.DrawQuad (self : D3D11Renderer) (mapResult : Int) (x y w h : ℚ) :
    Except String D3D11Renderer := do
  ThrowIfFailed mapResult "Map VB failed"
  let verts : List VertexPTC :=
    [⟨x, y, 0, 0⟩, ⟨x + w, y, 1, 0⟩, ⟨x + w, y + h, 1, 1⟩, ⟨x, y + h, 0, 1⟩]
  pure { self with
    vb_ := verts,
    context_ := self.context_ ++
      [ContextCall.PSSetShader PixelShader.psColor, ContextCall.DrawIndexed 6 0 0] }

/-- The method `D3D11Renderer::DrawTexturedQuad(x, y, w, h, texture)`;
`mapResult` is what `Map` of the vertex buffer returns. -/
def D3D11Renderer.DrawTexturedQuad (self : D3D11Renderer) (mapResult : Int) (x y w h : ℚ)
    (texture : Nat) : Except String D3D11Renderer := do
  ThrowIfFailed mapResult "Map VB failed"
  let verts : List VertexPTC :=
    [⟨x, y, 0, 0⟩, ⟨x + w, y, 1, 0⟩, ⟨x + w, y + h, 1, 1⟩, ⟨x, y + h, 0, 1⟩]
  pure { self with
    vb_ := verts,
    context_ := self.context_ ++
      [ContextCall.PSSetShader PixelShader.psTex,
       ContextCall.PSSetShaderResources texture,
       ContextCall.PSSetSamplers,
       ContextCall.DrawIndexed 6 0 0] }

/-- The method `D3D11Renderer::EndFrame()`. -/
def D3D11Renderer.EndFrame (self : D3D11Renderer) : D3D11Renderer :=
  { self with context_ := self.context_ ++ [ContextCall.Present 1] }

/-- Dispatch of one `IRenderer2D` call to `D3D11Renderer`; `mapResult` is what
`Map` returns during the call, if the call maps a buffer. -/
def D3D11Renderer.call (self : D3D11Renderer) (mapResult : Int) :
    RenderCall → Except String D3D11Renderer
  | .BeginFrame r g b a => self.BeginFrame mapResult r g b a
  | .DrawQuad x y w h => self.DrawQuad mapResult x y w h
  | .DrawTexturedQuad x y w h texture => self.DrawTexturedQuad mapResult x y w h texture
  | .EndFrame => pure self.EndFrame

/-- A sequence of `IRenderer2D` calls on a `D3D11Renderer`, each with the
`HRESULT` that `Map` returns during it; the first exception ends the sequence. -/
def D3D11Renderer.calls (self : D3D11Renderer) :
    List (Int × RenderCall) → Except String D3D11Renderer
  | [] => pure self
  | (mapResult, c) :: cs => do
    let next ← self.call mapResult c
    next.calls cs

/-- The vertex program run on a vertex of the vertex buffer, through the input
layout (`POSITION` at offset 0, `TEXCOORD` at offset 8), with the current
contents of the constant buffer; nothing while the buffer was never written. -/
def D3D11Renderer.vertexStage (self : D3D11Renderer) (vtx : VertexPTC) : Option VSOut :=
  self.g_ScreenCB.map (fun cb => VSMain cb { pos := (vtx.x, vtx.y), uv := (vtx.u, vtx.v) })

/-- Grouping of a triangle list: consecutive triples. -/
def triangleList {α : Type} : List α → List (α × α × α)
  | a :: b :: c :: rest => (a, b, c) :: triangleList rest
  | _ => []

/-- The triangles that `DrawIndexed(IndexCount, StartIndexLocation,
BaseVertexLocation)` assembles with topology `TRIANGLELIST` from the contents
of the index buffer `ib_` and of the vertex buffer `vb_`. -/
def D3D11Renderer.assemble (self : D3D11Renderer) (IndexCount StartIndexLocation : Nat)
    (BaseVertexLocation : Int) :
    List (Option VertexPTC × Option VertexPTC × Option VertexPTC) :=
  triangleList
    (((self.ib_.drop StartIndexLocation).take IndexCount).map
      (fun i => self.vb_[((i : Int) + BaseVertexLocation).toNat]?))

/-! ## render/d3d11/TextureLoader.cpp and `D3D11Renderer::LoadTextureFromFile`

What the imaging component and the device return to the loader is an input of
the model.  The sizes and descriptors the loader passes on are not looked at,
and the allocations of the pixel vector and of the wide path are taken to
succeed. -/

/-- The `HRESULT` `E_FAIL`, `0x80004005` as a signed 32-bit value. -/
def E_FAIL : Int := -2147467259

/-- The `HRESULT` `S_OK`. -/
def S_OK : Int := 0

/-- What the imaging component and the device return to
`CreateWICTextureFromFile`, in the order of the calls: the factory pointer that
`CoCreateInstance` stores (null when it fails), the `HRESULT` of each checked
call, the size `GetSize` reports, and the pointers that `CreateTexture2D` and
`CreateShaderResourceView` store when they succeed. -/
structure WICResults where
  CoCreateInstance : Nat := 1
  CreateDecoderFromFilename : Int := 0
  GetFrame : Int := 0
  GetSize : Nat × Nat := (1, 1)
  CreateFormatConverter : Int := 0
  Initialize : Int := 0
  CopyPixels : Int := 0
  CreateTexture2D : Int := 0
  texture : Nat := 1
  CreateShaderResourceView : Int := 0
  srv : Nat := 1
  deriving DecidableEq, Repr

/-- The function `GetWICFactory()`: `factory` is the value of its static
variable before the call; the result is returned and is also the value of the
static variable afterwards. -/
def GetWICFactory (factory : Nat) (wic : WICResults) : Nat :=
  if factory = 0 then wic.CoCreateInstance else factory

/-- What `CreateWICTextureFromFile` leaves behind: the `HRESULT` it returns and
the variables its two out-parameters point to (`none` for a null
out-parameter). -/
structure LoaderReturn where
  hr : Int
  textureOut : Option Nat
  srvOut : Option Nat
  deriving DecidableEq, Repr

/-- The function `CreateWICTextureFromFile(device, context, filename,
textureOut, srvOut)`; `textureOut` and `srvOut` hold the current values of the
variables the out-parameters point to, `none` for a null out-parameter. -/
def CreateWICTextureFromFile (factory : Nat) (wic : WICResults) (_filename : String)
    (textureOut srvOut : Option Nat) : LoaderReturn :=
  let fail (hr : Int) : LoaderReturn := { hr := hr, textureOut := textureOut, srvOut := srvOut }
  if GetWICFactory factory wic = 0 then fail E_FAIL
  else if FAILED wic.CreateDecoderFromFilename then fail wic.CreateDecoderFromFilename
  else if FAILED wic.GetFrame then fail wic.GetFrame
  else if FAILED wic.CreateFormatConverter then fail wic.CreateFormatConverter
  else if FAILED wic.Initialize then fail wic.Initialize
  else if FAILED wic.CopyPixels then fail wic.CopyPixels
  else if FAILED wic.CreateTexture2D then fail wic.CreateTexture2D
  else if FAILED wic.CreateShaderResourceView then fail wic.CreateShaderResourceView
  else
    { hr := S_OK,
      textureOut := textureOut.map (fun _ => wic.texture),
      srvOut := srvOut.map (fun _ => wic.srv) }

/-- The method `D3D11Renderer::LoadTextureFromFile(path)`; `factory` is the
static variable of `GetWICFactory` before the call.  The result is the pointer
returned, `0` being `nullptr`. -/
def D3D11Renderer.LoadTextureFromFile (_self : D3D11Renderer) (factory : Nat)
    (wic : WICResults) (path : String) : Except String Nat :=
  let ret := CreateWICTextureFromFile factory wic path none (some 0)
  if FAILED ret.hr then pure 0
  else pure (ret.srvOut.getD 0)

/-- The contract of `ID3D11Device::CreateShaderResourceView`: when it reports
success, the view it stored is not null. -/
def WICResults.Conforms (wic : WICResults) : Prop :=
  FAILED wic.CreateShaderResourceView = false → wic.srv ≠ 0

instance (wic : WICResults) : Decidable wic.Conforms := by
  unfold WICResults.Conforms; infer_instance

/-- Some step of the loader fails: the codec factory is unavailable, or one of
the checked calls returns a failure. -/
def WICResults.stepFails (factory : Nat) (wic : WICResults) : Bool :=
  decide (GetWICFactory factory wic = 0) || FAILED wic.CreateDecoderFromFilename ||
  FAILED wic.GetFrame || FAILED wic.CreateFormatConverter || FAILED wic.Initialize ||
  FAILED wic.CopyPixels || FAILED wic.CreateTexture2D || FAILED wic.CreateShaderResourceView

/-! ## platform/win/MainWin.cpp

What the operating system returns during startup, the messages it delivers and
what the clock and the keyboard report in each frame are inputs of the model.
The calls on the operating system that matter at exit are recorded in order.
The debug overlay is outside the program: whether it consumes a message is an
input, and its own drawing is not recorded. -/

/-- The message code `WM_DESTROY`. -/
def WM_DESTROY : Nat := 2

/-- The message code `WM_QUIT`. -/
def WM_QUIT : Nat := 18

/-- The message code `WM_KEYDOWN`. -/
def WM_KEYDOWN : Nat := 256

/-- The message code `WM_KEYUP`. -/
def WM_KEYUP : Nat := 257

/-- The virtual key code `VK_ESCAPE`. -/
def VK_ESCAPE : Nat := 27

/-- The conversion `static_cast<int>(wParam)` of a `WPARAM` to a 32-bit `int`. -/
def toInt32 (n : Nat) : Int :=
  if n % 2 ^ 32 < 2 ^ 31 then Int.ofNat (n % 2 ^ 32) else Int.ofNat (n % 2 ^ 32) - 2 ^ 32

/-- A recorded call on the operating system. -/
inductive WinCall where
  | MessageBoxA (text caption : String)
  | UnregisterClass
  | CoUninitialize
  | ShowWindow
  | UpdateWindow
  | PostQuitMessage (nExitCode : Int)
  deriving DecidableEq, Repr

/-- The window procedure `WndProc(hWnd, msg, wParam, lParam)`: `g_App` is the
object the global points to, if any, and `imguiHandled` tells whether the
overlay is installed and consumed the message.  The result is the object
afterwards and the calls made. -/
def WndProc (g_App : Option App) (imguiHandled : Bool) (msg wParam : Nat) :
    Option App × List WinCall :=
  if imguiHandled then (g_App, [])
  else if msg = WM_DESTROY then (g_App, [WinCall.PostQuitMessage 0])
  else if msg = WM_KEYDOWN then
    (g_App.map (fun app => app.OnKey true (toInt32 wParam)),
     if wParam = VK_ESCAPE then [WinCall.PostQuitMessage 0] else [])
  else if msg = WM_KEYUP then
    (g_App.map (fun app => app.OnKey false (toInt32 wParam)), [])
  else (g_App, [])

/-- What one iteration of the loop of `wWinMain` meets: a message taken from the
queue, or no message and then the elapsed time `dt`, what `IsKeyDown` (declared
in `WinInput.h`, which is not among the sources) answers for `'W'`, `'A'`,
`'S'`, `'D'`, and what `Map` returns for the constant buffer and for the vertex
buffer during the frame. -/
inductive PumpEvent where
  | message (message wParam : Nat) (imguiHandled : Bool)
  | idle (dt : ℚ) (keyW keyA keyS keyD : Bool) (mapScreenCB mapVB : Int)
  deriving DecidableEq, Repr

/-- The `HRESULT` of `Map` that goes with a renderer call of a frame. -/
def withMapResult (mapScreenCB mapVB : Int) (c : Nat × RenderCall) : Int × RenderCall :=
  match c.2 with
  | .BeginFrame _ _ _ _ => (mapScreenCB, c.2)
  | _ => (mapVB, c.2)

/-- How the `try` block of `wWinMain` ends: the calls made on the operating
system, and `what()` of the exception that left it, if one did. -/
structure TryResult where
  calls : List WinCall
  exception : Option String
  deriving DecidableEq, Repr

/-- The loop `while (msg.message != WM_QUIT)` of `wWinMain`, over the events the
iterations meet; `message` is `msg.message` at the head of the loop.  A
`WM_QUIT` message belongs to no window, so dispatching it reaches no window
procedure.  The result is `none` when the events run out while the loop is
still running. -/
def messageLoop : List PumpEvent → Nat → App → D3D11Renderer → List WinCall → Option TryResult
  | [], message, _, _, calls =>
    if message = WM_QUIT then some { calls := calls, exception := none } else none
  | ev :: rest, message, app, renderer, calls =>
    if message = WM_QUIT then some { calls := calls, exception := none }
    else
      match ev with
      | .message m wParam imguiHandled =>
        let dispatched :=
          if m = WM_QUIT then (some app, []) else WndProc (some app) imguiHandled m wParam
        messageLoop rest m (dispatched.1.getD app) renderer (calls ++ dispatched.2)
      | .idle dt keyW keyA keyS keyD mapScreenCB mapVB =>
        let app := if keyW then app.OnKey true (keyCode 'W') else app
        let app := if keyA then app.OnKey true (keyCode 'A') else app
        let app := if keyS then app.OnKey true (keyCode 'S') else app
        let app := if keyD then app.OnKey true (keyCode 'D') else app
        let app := app.Update dt
        let rendered := app.Render
        match renderer.calls (rendered.2.map (withMapResult mapScreenCB mapVB)) with
        | .error what => some { calls := calls, exception := some what }
        | .ok renderer => messageLoop rest message rendered.1 renderer calls

/-- What the operating system and the device return during the startup of
`wWinMain`: the `HRESULT` of `CoInitializeEx`, the atom of `RegisterClassEx`
(zero on failure), the handle of `CreateWindow` (null on failure), and the
results of the renderer constructor and of the texture loader. -/
structure StartupResults where
  CoInitializeEx : Int := 0
  RegisterClassEx : Nat := 1
  CreateWindow : Nat := 1
  device : DeviceResults := {}
  wic : WICResults := {}
  deriving DecidableEq, Repr

/-- The end of the process: the value `wWinMain` returns and the calls it made
on the operating system. -/
structure ProcessExit where
  status : Int
  calls : List WinCall
  deriving DecidableEq, Repr

/-- The calls `UnregisterClass` and, when `CoInitializeEx` had succeeded,
`CoUninitialize`, made on each path of `wWinMain` after window creation. -/
def cleanup (coHr : Int) : List WinCall :=
  [WinCall.UnregisterClass] ++ (if FAILED coHr then [] else [WinCall.CoUninitialize])

/-- The address of the local variable `renderer` of `wWinMain`, not null. -/
def rendererAddress : Nat := 1

/-- The function `wWinMain`; the result is `none` when the events run out while
the loop is still running. -/
def wWinMain (os : StartupResults) (events : List PumpEvent) : Option ProcessExit :=
  let coHr := os.CoInitializeEx
  if os.RegisterClassEx = 0 then some { status := -1, calls := [] }
  else
    let cfg : AppConfig := { title := "MiniGame2D (DX11)" }
    if os.CreateWindow = 0 then some { status := -1, calls := cleanup coHr }
    else
      let tried : Option TryResult :=
        match D3D11Renderer.new os.device cfg.width cfg.height with
        | .error what => some { calls := [], exception := some what }
        | .ok renderer =>
          let app := (App.new cfg).SetRenderer rendererAddress
          match renderer.LoadTextureFromFile 0 os.wic "assets/player.png" with
          | .error what => some { calls := [], exception := some what }
          | .ok tex =>
            let app := if tex ≠ 0 then app.SetPlayerTexture tex else app
            messageLoop events 0 app renderer [WinCall.ShowWindow, WinCall.UpdateWindow]
      match tried with
      | none => none
      | some { calls := calls, exception := some what } =>
        some { status := -1,
               calls := calls ++ [WinCall.MessageBoxA what "MiniGame2D - Error"] ++ cleanup coHr }
      | some { calls := calls, exception := none } =>
        some { status := 0, calls := calls ++ cleanup coHr }

/-- Some checked call of the constructor of `D3D11Renderer` fails: device
creation, swap chain and render target creation, shader compilation, or the
creation of a buffer, shader, input layout or sampler. -/
def DeviceResults.anyFailed (dev : DeviceResults) : Bool :=
  FAILED dev.D3D11CreateDevice || FAILED dev.QueryDXGIDevice || FAILED dev.GetAdapter ||
  FAILED dev.GetParent || FAILED dev.CreateSwapChain || FAILED dev.GetBuffer ||
  FAILED dev.CreateRenderTargetView || FAILED dev.CreateVertexBuffer ||
  FAILED dev.CreateIndexBuffer || FAILED dev.CompileVS.hr || FAILED dev.CreateVertexShader ||
  FAILED dev.CreateInputLayout || FAILED dev.CompilePSColor.hr ||
  FAILED dev.CreatePixelShaderColor || FAILED dev.CompilePSTex.hr ||
  FAILED dev.CreatePixelShaderTex || FAILED dev.CreateScreenCB ||
  FAILED dev.CreateSamplerState

/-- The number of message dialogs among recorded calls. -/
def dialogs (calls : List WinCall) : Nat :=
  calls.countP (fun c => match c with
    | .MessageBoxA _ _ => true
    | _ => false)

/-- The rectangle `(x, y, w, h)` of a draw call through `IRenderer2D`; `none`
for a call that draws no quad. -/
def quadOf : RenderCall → Option (ℚ × ℚ × ℚ × ℚ)
  | .DrawQuad x y w h => some (x, y, w, h)
  | .DrawTexturedQuad x y w h _ => some (x, y, w, h)
  | _ => none

/-- An `App` configured for a 32x32 window whose position was set to
(2000, 2000) through `State()`. -/
def smallWindowApp : App :=
  (App.new { width := 32, height := 32 }).SetState { playerX := 2000, playerY := 2000 }

end MiniGame

namespace MiniGame

/-! ## Facts about `std::clamp` -/

theorem clamp_eq_returns (v lo hi : ℚ) (h : lo ≤ hi) :
    clamp v lo hi = if v < lo then lo else if hi < v then hi else v := by
  unfold clamp
  by_cases h1 : v < lo
  · simp only [h1, if_true]
    rw [if_neg (not_lt.mpr h)]
  · simp only [h1, if_false]

theorem clamp_mem (v lo hi : ℚ) (h : lo ≤ hi) : lo ≤ clamp v lo hi ∧ clamp v lo hi ≤ hi := by
  rw [clamp_eq_returns v lo hi h]
  split_ifs with h1 h2
  · exact ⟨le_refl _, h⟩
  · exact ⟨h, le_refl _⟩
  · exact ⟨not_lt.mp h1, not_lt.mp h2⟩

theorem clamp_of_mem (v lo hi : ℚ) (h1 : lo ≤ v) (h2 : v ≤ hi) : clamp v lo hi = v := by
  rw [clamp_eq_returns v lo hi (le_trans h1 h2), if_neg (not_lt.mpr h1), if_neg (not_lt.mpr h2)]

theorem clamp_eq_min_max (v lo hi : ℚ) (h : lo ≤ hi) : clamp v lo hi = min (max v lo) hi := by
  rw [clamp_eq_returns v lo hi h]
  split_ifs with h1 h2
  · rw [max_eq_right h1.le, min_eq_left h]
  · rw [max_eq_left (not_lt.mp h1), min_eq_right h2.le]
  · rw [max_eq_left (not_lt.mp h1), min_eq_left (not_lt.mp h2)]

theorem clamp_nearest (v lo hi p : ℚ) (h1 : lo ≤ p) (h2 : p ≤ hi) :
    |v - clamp v lo hi| ≤ |v - p| := by
  rw [clamp_eq_returns v lo hi (le_trans h1 h2)]
  split_ifs with h3 h4
  · rw [abs_of_neg (by linarith), abs_of_neg (by linarith)]; linarith
  · rw [abs_of_pos (by linarith), abs_of_pos (by linarith)]; linarith
  · simp

theorem bound_nonneg (n : Int) (h : 64 ≤ n) : (0 : ℚ) ≤ (n : ℚ) - 64 := by
  have h1 : ((64 : Int) : ℚ) ≤ (n : ℚ) := Int.cast_le.mpr h
  have h2 : ((64 : Int) : ℚ) = 64 := by norm_num
  linarith

/-! ## `App::Update` -/

/-- C1, amended: when the configured width and height are at least 64, then for
every `dt` and every position before the update, after `App::Update(dt)` the
position `playerX` lies in `[0, width-64]` and `playerY` in `[0, height-64]`. -/
theorem Update_position_in_bounds (a : App) (dt : ℚ)
    (hw : 64 ≤ a.cfg_.width) (hh : 64 ≤ a.cfg_.height) :
    0 ≤ (a.Update dt).state_.playerX ∧
    (a.Update dt).state_.playerX ≤ (a.cfg_.width : ℚ) - 64 ∧
    0 ≤ (a.Update dt).state_.playerY ∧
    (a.Update dt).state_.playerY ≤ (a.cfg_.height : ℚ) - 64 := by
  have hx := clamp_mem a.state_.playerX 0 _ (bound_nonneg _ hw)
  have hy := clamp_mem a.state_.playerY 0 _ (bound_nonneg _ hh)
  exact ⟨hx.1, hx.2, hy.1, hy.2⟩

/-- Instance of C1 (amended) at the default 1280x720 configuration, with the
position driven to (2000, -5). -/
theorem Update_position_in_bounds_witness :
    0 ≤ (((App.new {}).SetState { playerX := 2000, playerY := -5 }).Update 0).state_.playerX ∧
    (((App.new {}).SetState { playerX := 2000, playerY := -5 }).Update 0).state_.playerX
      ≤ ((1280 : Int) : ℚ) - 64 ∧
    0 ≤ (((App.new {}).SetState { playerX := 2000, playerY := -5 }).Update 0).state_.playerY ∧
    (((App.new {}).SetState { playerX := 2000, playerY := -5 }).Update 0).state_.playerY
      ≤ ((720 : Int) : ℚ) - 64 :=
  Update_position_in_bounds ((App.new {}).SetState { playerX := 2000, playerY := -5 }) 0
    (by decide) (by decide)

/-- C1 as stated fails: with a configured 32x32 window and the default position
(200, 200), `App::Update(0)` leaves `playerX = -32`, which is not in
`[0, width-64]` (that interval is empty). -/
theorem Update_small_window_out_of_bounds :
    ((App.new { width := 32, height := 32 }).Update 0).state_.playerX = -32 ∧
    ¬ (0 ≤ ((App.new { width := 32, height := 32 }).Update 0).state_.playerX ∧
       ((App.new { width := 32, height := 32 }).Update 0).state_.playerX
         ≤ (((App.new { width := 32, height := 32 }).cfg_.width : Int) : ℚ) - 64) := by
  norm_num [App.Update, App.new, clamp]

/-- C2, amended: when the configured width and height are at least 64,
`App::Update` replaces `playerX` by `min(max(playerX, 0), width-64)` and
`playerY` by `min(max(playerY, 0), height-64)`, each a point of its interval
and the nearest one; with width 1280 and height 720 the position (2000, 2000)
becomes (1216, 656); a position already in bounds leaves the object unchanged. -/
theorem Update_clamps (a : App) (dt : ℚ)
    (hw : 64 ≤ a.cfg_.width) (hh : 64 ≤ a.cfg_.height) :
    (a.Update dt).state_.playerX = min (max a.state_.playerX 0) ((a.cfg_.width : ℚ) - 64) ∧
    (a.Update dt).state_.playerY = min (max a.state_.playerY 0) ((a.cfg_.height : ℚ) - 64) ∧
    (∀ p : ℚ, 0 ≤ p → p ≤ (a.cfg_.width : ℚ) - 64 →
      |a.state_.playerX - (a.Update dt).state_.playerX| ≤ |a.state_.playerX - p|) ∧
    (∀ p : ℚ, 0 ≤ p → p ≤ (a.cfg_.height : ℚ) - 64 →
      |a.state_.playerY - (a.Update dt).state_.playerY| ≤ |a.state_.playerY - p|) ∧
    (a.cfg_.width = 1280 → a.cfg_.height = 720 →
      a.state_.playerX = 2000 → a.state_.playerY = 2000 →
      (a.Update dt).state_.playerX = 1216 ∧ (a.Update dt).state_.playerY = 656) ∧
    (a.InBounds → a.Update dt = a) ∧
    (0 ≤ (a.Update dt).state_.playerX ∧
      (a.Update dt).state_.playerX ≤ (a.cfg_.width : ℚ) - 64 ∧
      0 ≤ (a.Update dt).state_.playerY ∧
      (a.Update dt).state_.playerY ≤ (a.cfg_.height : ℚ) - 64) := by
  have hx := clamp_mem a.state_.playerX 0 _ (bound_nonneg _ hw)
  have hy := clamp_mem a.state_.playerY 0 _ (bound_nonneg _ hh)
  refine ⟨clamp_eq_min_max _ _ _ (bound_nonneg _ hw), clamp_eq_min_max _ _ _ (bound_nonneg _ hh),
    fun p h1 h2 => clamp_nearest _ _ _ p h1 h2, fun p h1 h2 => clamp_nearest _ _ _ p h1 h2,
    ?_, ?_, ⟨hx.1, hx.2, hy.1, hy.2⟩⟩
  · intro h1 h2 h3 h4
    simp only [App.Update, h1, h2, h3, h4]
    norm_num [clamp]
  · intro h
    obtain ⟨h1, h2, h3, h4⟩ := h
    simp only [App.Update, clamp_of_mem _ _ _ h1 h2, clamp_of_mem _ _ _ h3 h4]

/-- Instance of C2 (amended): the 1280x720 scenario of the specification. -/
theorem Update_clamps_witness :
    (((App.new {}).SetState { playerX := 2000, playerY := 2000 }).Update 0).state_.playerX = 1216 ∧
    (((App.new {}).SetState { playerX := 2000, playerY := 2000 }).Update 0).state_.playerY = 656 :=
  (Update_clamps ((App.new {}).SetState { playerX := 2000, playerY := 2000 }) 0
    (by decide) (by decide)).2.2.2.2.1 rfl rfl rfl rfl

/-- C2 as stated fails: with a configured 32x32 window and the position
(2000, 2000), `App::Update(0)` gives `playerX = -32`.  That is the value of
`min(max(playerX, 0), width-64)`, but the interval `[0, width-64]` has no point
at all, so the new `playerX` is not a point of its interval, let alone the
nearest one. -/
theorem Update_small_window_no_nearest_point :
    (smallWindowApp.Update 0).state_.playerX = -32 ∧
    ¬ (∃ p : ℚ, 0 ≤ p ∧ p ≤ (smallWindowApp.cfg_.width : ℚ) - 64) ∧
    ¬ (0 ≤ (smallWindowApp.Update 0).state_.playerX ∧
       (smallWindowApp.Update 0).state_.playerX ≤ (smallWindowApp.cfg_.width : ℚ) - 64) := by
  have hv : (smallWindowApp.Update 0).state_.playerX = -32 := by
    norm_num [App.Update, smallWindowApp, App.new, App.SetState, clamp]
  have hb : (smallWindowApp.cfg_.width : ℚ) - 64 = -32 := by
    norm_num [smallWindowApp, App.new, App.SetState]
  refine ⟨hv, ?_, ?_⟩
  · rintro ⟨p, h0, h1⟩
    rw [hb] at h1
    linarith
  · rw [hv, hb]
    norm_num

/-! ## `App::OnKey` -/

theorem keyCode_W : keyCode 'W' = 87 := by decide

theorem keyCode_S : keyCode 'S' = 83 := by decide

theorem keyCode_A : keyCode 'A' = 65 := by decide

theorem keyCode_D : keyCode 'D' = 68 := by decide

/-- C3: `App::OnKey(down, key)` leaves the object, and so the whole game state,
unchanged whenever `down` is false (for every key code) or `key` is none of
`'W'`, `'A'`, `'S'`, `'D'` (whether `down` or not). -/
theorem OnKey_ignored (a : App) (down : Bool) (key : Int)
    (h : down = false ∨
      (key ≠ keyCode 'W' ∧ key ≠ keyCode 'A' ∧ key ≠ keyCode 'S' ∧ key ≠ keyCode 'D')) :
    a.OnKey down key = a ∧ (a.OnKey down key).state_ = a.state_ := by
  have h0 : a.OnKey down key = a := by
    rcases h with h | ⟨hW, hA, hS, hD⟩
    · simp [App.OnKey, h]
    · simp [App.OnKey, hW, hA, hS, hD]
  exact ⟨h0, by rw [h0]⟩

/-- Instances of C3: a key-up of `'W'`, and a key-down of `'Q'`. -/
theorem OnKey_ignored_witness :
    ((App.new {}).OnKey false (keyCode 'W')).state_ = (App.new {}).state_ ∧
    ((App.new {}).OnKey true (keyCode 'Q')).state_ = (App.new {}).state_ :=
  ⟨(OnKey_ignored (App.new {}) false (keyCode 'W') (Or.inl rfl)).2,
   (OnKey_ignored (App.new {}) true (keyCode 'Q')
      (Or.inr ⟨by decide, by decide, by decide, by decide⟩)).2⟩

/-- C4: for every state, a key-down of one key followed by a key-down of its
opposite (`'D'` then `'A'`, `'A'` then `'D'`, `'W'` then `'S'`, `'S'` then `'W'`),
with no `Update` in between, gives back the object it started from; in
particular `playerX` and `playerY` return to their values before the presses. -/
theorem OnKey_opposite_cancels (a : App) :
    (a.OnKey true (keyCode 'D')).OnKey true (keyCode 'A') = a ∧
    (a.OnKey true (keyCode 'A')).OnKey true (keyCode 'D') = a ∧
    (a.OnKey true (keyCode 'W')).OnKey true (keyCode 'S') = a ∧
    (a.OnKey true (keyCode 'S')).OnKey true (keyCode 'W') = a := by
  have hWS : keyCode 'S' ≠ keyCode 'W' := by decide
  have hWA : keyCode 'A' ≠ keyCode 'W' := by decide
  have hWD : keyCode 'D' ≠ keyCode 'W' := by decide
  have hSA : keyCode 'A' ≠ keyCode 'S' := by decide
  have hSD : keyCode 'D' ≠ keyCode 'S' := by decide
  have hAD : keyCode 'D' ≠ keyCode 'A' := by decide
  refine ⟨?_, ?_, ?_, ?_⟩ <;>
    simp [App.OnKey, hWS, hWA, hWD, hSA, hSD, hAD]

/-- C5: on key-down `App::OnKey` changes one coordinate by exactly `speed/60`
and nothing else: `'W'` subtracts it from `playerY`, `'S'` adds it to `playerY`,
`'A'` subtracts it from `playerX`, `'D'` adds it to `playerX`.  The step is
computed from `speed` alone; the method takes no elapsed time. -/
theorem OnKey_down_moves (a : App) :
    a.OnKey true (keyCode 'W') =
      { a with state_ := { a.state_ with playerY := a.state_.playerY - a.state_.speed / 60 } } ∧
    a.OnKey true (keyCode 'S') =
      { a with state_ := { a.state_ with playerY := a.state_.playerY + a.state_.speed / 60 } } ∧
    a.OnKey true (keyCode 'A') =
      { a with state_ := { a.state_ with playerX := a.state_.playerX - a.state_.speed / 60 } } ∧
    a.OnKey true (keyCode 'D') =
      { a with state_ := { a.state_ with playerX := a.state_.playerX + a.state_.speed / 60 } } := by
  have hWS : keyCode 'S' ≠ keyCode 'W' := by decide
  have hWA : keyCode 'A' ≠ keyCode 'W' := by decide
  have hWD : keyCode 'D' ≠ keyCode 'W' := by decide
  have hSA : keyCode 'A' ≠ keyCode 'S' := by decide
  have hSD : keyCode 'D' ≠ keyCode 'S' := by decide
  have hAD : keyCode 'D' ≠ keyCode 'A' := by decide
  refine ⟨?_, ?_, ?_, ?_⟩ <;>
    simp [App.OnKey, hWS, hWA, hWD, hSA, hSD, hAD]

/-- C6: with width 1280, height 720, position (200, 200) and speed 220, one
`OnKey(true, 'D')` followed by `Update(dt)`, for any `dt`, ends with
`playerX = 200 + 220/60` and `playerY = 200`; and for every object, key event
and `dt`, when the position after `OnKey` is inside
`[0, width-64] x [0, height-64]`, `Update` returns the object `OnKey` produced. -/
theorem OnKey_then_Update (a : App) (down : Bool) (key : Int) (dt : ℚ) :
    (a.cfg_.width = 1280 → a.cfg_.height = 720 →
      a.state_ = { playerX := 200, playerY := 200, speed := 220 } →
      ((a.OnKey true (keyCode 'D')).Update dt).state_.playerX = 200 + 220 / 60 ∧
      ((a.OnKey true (keyCode 'D')).Update dt).state_.playerY = 200) ∧
    ((a.OnKey down key).InBounds → (a.OnKey down key).Update dt = a.OnKey down key) := by
  have hWD : keyCode 'D' ≠ keyCode 'W' := by decide
  have hSD : keyCode 'D' ≠ keyCode 'S' := by decide
  have hAD : keyCode 'D' ≠ keyCode 'A' := by decide
  constructor
  · intro h1 h2 h3
    simp only [App.OnKey, App.Update, hWD, hSD, hAD, h1, h2, h3]
    norm_num [clamp]
    rw [h1, h2]
    norm_num
  · intro h
    obtain ⟨h1, h2, h3, h4⟩ := h
    simp only [App.Update, clamp_of_mem _ _ _ h1 h2, clamp_of_mem _ _ _ h3 h4]

/-- Instance of C6: the scenario of the specification, at `dt = 1/60`. -/
theorem OnKey_then_Update_witness :
    (((App.new {}).OnKey true (keyCode 'D')).Update (1 / 60)).state_.playerX = 200 + 220 / 60 ∧
    (((App.new {}).OnKey true (keyCode 'D')).Update (1 / 60)).state_.playerY = 200 ∧
    ((App.new {}).OnKey true (keyCode 'D')).Update (1 / 60) = (App.new {}).OnKey true (keyCode 'D') :=
  have h := OnKey_then_Update (App.new {}) true (keyCode 'D') (1 / 60)
  ⟨(h.1 rfl rfl rfl).1, (h.1 rfl rfl rfl).2,
   h.2 (by norm_num [App.InBounds, App.OnKey, App.new, keyCode_D, keyCode_W, keyCode_S, keyCode_A])⟩

/-! ## `App::Render` and `App::SetPlayerTexture` -/

theorem Render_fst (a : App) : a.Render.1 = a := by
  unfold App.Render
  split_ifs <;> rfl

theorem Render_calls_of_renderer (a : App) (h : a.renderer_ ≠ 0) :
    a.Render.2 =
      [(a.renderer_, RenderCall.BeginFrame (7 / 100) (8 / 100) (1 / 10) 1),
       (a.renderer_,
          if a.hasTexture_ && a.playerTex_ != 0 then
            RenderCall.DrawTexturedQuad a.state_.playerX a.state_.playerY 96 96 a.playerTex_
          else RenderCall.DrawQuad a.state_.playerX a.state_.playerY 96 96),
       (a.renderer_, RenderCall.EndFrame)] := by
  unfold App.Render
  rw [if_neg h]

theorem Render_calls_of_no_renderer (a : App) (h : a.renderer_ = 0) : a.Render.2 = [] := by
  unfold App.Render
  rw [if_pos h]

/-- The flag `hasTexture_` tells whether `playerTex_` is non-null; every use of
the public interface keeps it so. -/
theorem step_hasTexture (a : App) (op : AppOp) (h : a.hasTexture_ = (a.playerTex_ != 0)) :
    (a.step op).hasTexture_ = ((a.step op).playerTex_ != 0) := by
  cases op with
  | Update dt => exact h
  | Render => simpa [App.step, Render_fst] using h
  | OnKey down key =>
    simp only [App.step, App.OnKey]
    split_ifs <;> exact h
  | SetState s => exact h
  | SetRenderer r => exact h
  | SetPlayerTexture t => rfl

theorem run_hasTexture (ops : List AppOp) :
    ∀ a : App, a.hasTexture_ = (a.playerTex_ != 0) →
      (a.run ops).hasTexture_ = ((a.run ops).playerTex_ != 0) := by
  induction ops with
  | nil => intro a h; exact h
  | cons op ops ih => intro a h; exact ih (a.step op) (step_hasTexture a op h)

theorem receivedBy_append (r : Nat) (xs ys : List (Nat × RenderCall)) :
    receivedBy r (xs ++ ys) = receivedBy r xs ++ receivedBy r ys := by
  simp [receivedBy, List.filter_append]

theorem receivedBy_Render (a : App) (r : Nat) :
    receivedBy r a.Render.2 = [] ∨
    ∃ draw, receivedBy r a.Render.2 =
        [RenderCall.BeginFrame (7 / 100) (8 / 100) (1 / 10) 1, draw, RenderCall.EndFrame] ∧
      ((∃ x y w h, draw = RenderCall.DrawQuad x y w h) ∨
       (∃ x y w h t, draw = RenderCall.DrawTexturedQuad x y w h t)) := by
  by_cases h0 : a.renderer_ = 0
  · left
    rw [Render_calls_of_no_renderer a h0]
    rfl
  · rw [Render_calls_of_renderer a h0]
    by_cases hr : a.renderer_ = r
    · right
      refine ⟨if a.hasTexture_ && a.playerTex_ != 0 then
          RenderCall.DrawTexturedQuad a.state_.playerX a.state_.playerY 96 96 a.playerTex_
        else RenderCall.DrawQuad a.state_.playerX a.state_.playerY 96 96,
        by simp [receivedBy, hr], ?_⟩
      split_ifs
      · exact Or.inr ⟨_, _, _, _, _, rfl⟩
      · exact Or.inl ⟨_, _, _, _, rfl⟩
    · left
      simp [receivedBy, hr]

theorem frameProtocol_calls (ops : List AppOp) :
    ∀ (a : App) (r : Nat), frameProtocol false (receivedBy r (a.calls ops)) = true := by
  induction ops with
  | nil => intro a r; rfl
  | cons op ops ih =>
    intro a r
    have hrest := ih (a.step op) r
    cases op with
    | Render =>
      simp only [App.calls, receivedBy_append]
      rcases receivedBy_Render a r with h | ⟨draw, h, hd⟩
      · rw [h]; exact hrest
      · rw [h]
        rcases hd with ⟨x, y, w, h', rfl⟩ | ⟨x, y, w, h', t, rfl⟩
        · simpa [frameProtocol] using hrest
        · simpa [frameProtocol] using hrest
    | Update dt => simpa [App.calls] using hrest
    | OnKey down key => simpa [App.calls] using hrest
    | SetState s => simpa [App.calls] using hrest
    | SetRenderer r' => simpa [App.calls] using hrest
    | SetPlayerTexture t => simpa [App.calls] using hrest

/-- C7, amended: for an `App` reached from its constructor through its public
interface and with a renderer attached, `App::Render` makes exactly one draw
call between `BeginFrame` and `EndFrame`: `DrawQuad(playerX, playerY, 96, 96)`
when the stored texture handle is null (never set, or set to null), and
`DrawTexturedQuad(playerX, playerY, 96, 96, handle)` when it is non-null. -/
theorem Render_texture_fallback (cfg : AppConfig) (ops : List AppOp) (a : App)
    (ha : a = (App.new cfg).run ops) (hr : a.renderer_ ≠ 0) :
    a.Render.2 =
      [(a.renderer_, RenderCall.BeginFrame (7 / 100) (8 / 100) (1 / 10) 1),
       (a.renderer_,
          if a.playerTex_ = 0 then
            RenderCall.DrawQuad a.state_.playerX a.state_.playerY 96 96
          else RenderCall.DrawTexturedQuad a.state_.playerX a.state_.playerY 96 96 a.playerTex_),
       (a.renderer_, RenderCall.EndFrame)] ∧
    (a.SetPlayerTexture 0).Render.2 =
      [(a.renderer_, RenderCall.BeginFrame (7 / 100) (8 / 100) (1 / 10) 1),
       (a.renderer_, RenderCall.DrawQuad a.state_.playerX a.state_.playerY 96 96),
       (a.renderer_, RenderCall.EndFrame)] ∧
    ((∀ t, AppOp.SetPlayerTexture t ∉ ops) → a.playerTex_ = 0) := by
  have hinv : a.hasTexture_ = (a.playerTex_ != 0) := by
    rw [ha]
    exact run_hasTexture ops (App.new cfg) rfl
  refine ⟨?_, ?_, ?_⟩
  · rw [Render_calls_of_renderer a hr, hinv]
    by_cases ht : a.playerTex_ = 0
    · simp [ht]
    · simp [ht]
  · rw [Render_calls_of_renderer (a.SetPlayerTexture 0) hr]
    simp [App.SetPlayerTexture]
  · intro hno
    rw [ha]
    clear ha hinv hr
    have key : ∀ (ops : List AppOp) (b : App), b.playerTex_ = 0 →
        (∀ t, AppOp.SetPlayerTexture t ∉ ops) → (b.run ops).playerTex_ = 0 := by
      intro ops
      induction ops with
      | nil => intro b hb _; exact hb
      | cons op ops ih =>
        intro b hb hno
        refine ih (b.step op) ?_ (fun t ht => hno t (List.mem_cons_of_mem _ ht))
        cases op with
        | Update dt => exact hb
        | Render => simpa [App.step, Render_fst] using hb
        | OnKey down key =>
          simp only [App.step, App.OnKey]
          split_ifs <;> exact hb
        | SetState s => exact hb
        | SetRenderer r => exact hb
        | SetPlayerTexture t => exact absurd (List.mem_cons_self _ _) (hno t)
    exact key ops (App.new cfg) rfl hno

/-- Instances of C7 (amended): the default `App` with renderer 1 attached, with
no texture set and with texture handle 7 set. -/
theorem Render_texture_fallback_witness :
    ((App.new {}).run [.SetRenderer 1]).Render.2 =
      [(1, RenderCall.BeginFrame (7 / 100) (8 / 100) (1 / 10) 1),
       (1, RenderCall.DrawQuad 200 200 96 96),
       (1, RenderCall.EndFrame)] ∧
    ((App.new {}).run [.SetRenderer 1, .SetPlayerTexture 7]).Render.2 =
      [(1, RenderCall.BeginFrame (7 / 100) (8 / 100) (1 / 10) 1),
       (1, RenderCall.DrawTexturedQuad 200 200 96 96 7),
       (1, RenderCall.EndFrame)] :=
  ⟨(Render_texture_fallback {} [.SetRenderer 1] _ rfl (by decide)).1,
   (Render_texture_fallback {} [.SetRenderer 1, .SetPlayerTexture 7] _ rfl (by decide)).1⟩

/-- C7 as stated fails: a freshly constructed `App` has no texture and no
renderer, and its `Render` makes no call at all, so no `DrawQuad` either. -/
theorem Render_without_renderer_draws_nothing :
    (App.new {}).playerTex_ = 0 ∧ (App.new {}).Render.2 = [] ∧
    ¬ (∃ c ∈ (App.new {}).Render.2, c.2 = RenderCall.DrawQuad 200 200 96 96) := by
  have h : (App.new {}).Render.2 = [] := Render_calls_of_no_renderer _ rfl
  refine ⟨rfl, h, ?_⟩
  rw [h]
  simp

/-- C8: with a renderer attached, `App::Render` makes on that renderer exactly
the calls `BeginFrame`, one draw call (`DrawQuad` or `DrawTexturedQuad`),
`EndFrame`, in that order; with no renderer attached it makes no call; in both
cases the object, and so the game state, is unchanged; and over any sequence of
uses of the public interface the calls each renderer receives follow the frame
protocol (every draw call inside a frame, every frame closed). -/
theorem Render_brackets_one_frame (a : App) :
    (a.renderer_ ≠ 0 →
      ∃ draw, a.Render.2 =
          [(a.renderer_, RenderCall.BeginFrame (7 / 100) (8 / 100) (1 / 10) 1),
           (a.renderer_, draw), (a.renderer_, RenderCall.EndFrame)] ∧
        (draw = RenderCall.DrawQuad a.state_.playerX a.state_.playerY 96 96 ∨
         draw = RenderCall.DrawTexturedQuad a.state_.playerX a.state_.playerY 96 96
                  a.playerTex_)) ∧
    (a.renderer_ = 0 → a.Render.2 = []) ∧
    a.Render.1 = a ∧ a.Render.1.state_ = a.state_ ∧
    (∀ (ops : List AppOp) (r : Nat), frameProtocol false (receivedBy r (a.calls ops)) = true) := by
  refine ⟨?_, Render_calls_of_no_renderer a, Render_fst a, by rw [Render_fst], ?_⟩
  · intro h
    refine ⟨_, Render_calls_of_renderer a h, ?_⟩
    split_ifs
    · exact Or.inr rfl
    · exact Or.inl rfl
  · intro ops r
    exact frameProtocol_calls ops a r

/-- Instances of C8: the default `App` with renderer 1 attached, and without. -/
theorem Render_brackets_one_frame_witness :
    (∃ draw, ((App.new {}).SetRenderer 1).Render.2 =
        [(1, RenderCall.BeginFrame (7 / 100) (8 / 100) (1 / 10) 1), (1, draw),
         (1, RenderCall.EndFrame)] ∧
      (draw = RenderCall.DrawQuad 200 200 96 96 ∨
       draw = RenderCall.DrawTexturedQuad 200 200 96 96 0)) ∧
    (App.new {}).Render.2 = [] :=
  ⟨(Render_brackets_one_frame ((App.new {}).SetRenderer 1)).1 (by decide),
   (Render_brackets_one_frame (App.new {})).2.1 rfl⟩

/-! ## `D3D11Renderer` -/

theorem ThrowIfFailed_bind {α : Type} (hr : Int) (msg : String)
    (k : Unit → Except String α) (x : α) :
    (ThrowIfFailed hr msg >>= k) = .ok x ↔ FAILED hr = false ∧ k () = .ok x := by
  unfold ThrowIfFailed
  cases hf : FAILED hr
  · simp [bind, Except.bind]
  · simp [bind, Except.bind]

theorem CompileShader_bind {α : Type} (res : CompileResult)
    (k : Unit → Except String α) (x : α) :
    (CompileShader res >>= k) = .ok x ↔ FAILED res.hr = false ∧ k () = .ok x := by
  unfold CompileShader ThrowIfFailed
  cases hf : FAILED res.hr
  · simp [bind, Except.bind, pure, Except.pure]
  · cases res.errors <;> simp [bind, Except.bind, pure, Except.pure, throw, throwThe,
      MonadExceptOf.throw, hf]

theorem CreatePipeline_ib (r r' : D3D11Renderer) (dev : DeviceResults)
    (h : r.CreatePipeline dev = .ok r') : r'.ib_ = [0, 1, 2, 0, 2, 3] := by
  simp only [D3D11Renderer.CreatePipeline, ThrowIfFailed_bind, CompileShader_bind] at h
  obtain ⟨-, -, -, -, -, -, -, -, -, -, -, h⟩ := h
  cases h
  rfl

theorem new_ib (dev : DeviceResults) (w h : Int) (r : D3D11Renderer)
    (hr : D3D11Renderer.new dev w h = .ok r) : r.ib_ = [0, 1, 2, 0, 2, 3] := by
  simp only [D3D11Renderer.new, ThrowIfFailed_bind] at hr
  obtain ⟨-, hr⟩ := hr
  cases hs : D3D11Renderer.CreateSwapChainAndTargets
      { backBufferW_ := w, backBufferH_ := h } dev w h with
  | error e => rw [hs] at hr; simp [bind, Except.bind] at hr
  | ok r1 =>
    rw [hs] at hr
    exact CreatePipeline_ib r1 r dev hr

theorem call_ib (self next : D3D11Renderer) (mapResult : Int) (c : RenderCall)
    (h : self.call mapResult c = .ok next) : next.ib_ = self.ib_ := by
  cases c with
  | BeginFrame r g b a =>
    simp only [D3D11Renderer.call, D3D11Renderer.BeginFrame, ThrowIfFailed_bind] at h
    obtain ⟨-, h⟩ := h
    cases h
    rfl
  | DrawQuad x y w h' =>
    simp only [D3D11Renderer.call, D3D11Renderer.DrawQuad, ThrowIfFailed_bind] at h
    obtain ⟨-, h⟩ := h
    cases h
    rfl
  | DrawTexturedQuad x y w h' t =>
    simp only [D3D11Renderer.call, D3D11Renderer.DrawTexturedQuad, ThrowIfFailed_bind] at h
    obtain ⟨-, h⟩ := h
    cases h
    rfl
  | EndFrame =>
    cases h
    rfl

theorem calls_ib (cs : List (Int × RenderCall)) :
    ∀ self next : D3D11Renderer, self.calls cs = .ok next → next.ib_ = self.ib_ := by
  induction cs with
  | nil =>
    intro self next h
    cases h
    rfl
  | cons c cs ih =>
    intro self next h
    obtain ⟨mapResult, c⟩ := c
    simp only [D3D11Renderer.calls] at h
    cases hc : self.call mapResult c with
    | error e => rw [hc] at h; simp [bind, Except.bind] at h
    | ok mid =>
      rw [hc] at h
      rw [ih mid next h, call_ib self mid mapResult c hc]

theorem ndc_range (W x : ℚ) (hW : 0 < W) (h0 : 0 ≤ x) (h1 : x ≤ W) :
    -1 ≤ x / (W * (1 / 2)) - 1 ∧ x / (W * (1 / 2)) - 1 ≤ 1 := by
  have hpos : 0 < W * (1 / 2) := by positivity
  have hlo : 0 ≤ x / (W * (1 / 2)) := div_nonneg h0 hpos.le
  have hhi : x / (W * (1 / 2)) ≤ 2 := by
    rw [div_le_iff₀ hpos]
    linarith
  constructor <;> linarith

theorem BeginFrame_ok (self : D3D11Renderer) (mapResult : Int) (r g b a : ℚ)
    (hmap : FAILED mapResult = false) :
    self.BeginFrame mapResult r g b a = .ok
      { self with
        g_ScreenCB := some { screenSize := ((self.backBufferW_ : ℚ), (self.backBufferH_ : ℚ)) },
        context_ := self.context_ ++
          [ContextCall.OMSetRenderTargets, ContextCall.ClearRenderTargetView r g b a] ++
          [ContextCall.RSSetViewports self.viewport_,
           ContextCall.IASetVertexBuffers 16 0,
           ContextCall.IASetIndexBuffer,
           ContextCall.IASetPrimitiveTopology,
           ContextCall.IASetInputLayout,
           ContextCall.VSSetConstantBuffers,
           ContextCall.VSSetShader] } := by
  simp [D3D11Renderer.BeginFrame, ThrowIfFailed, hmap, bind, Except.bind, pure, Except.pure]

/-- C9: after `BeginFrame` on a renderer whose back buffer is `W` by `H` with
`W, H > 0`, the constant buffer holds `(W, H)` and the vertex program maps the
pixel `(x, y)` to `(x/(W/2) - 1, -(y/(H/2) - 1))`: `(0, 0)` goes to `(-1, 1)`,
`(W, H)` to `(1, -1)`, the centre `(W/2, H/2)` to `(0, 0)`, and every pixel of
`[0, W] x [0, H]` into `[-1, 1] x [-1, 1]`. -/
theorem BeginFrame_pixel_to_ndc (self : D3D11Renderer) (mapResult : Int) (r g b a : ℚ)
    (hmap : FAILED mapResult = false)
    (hW : 0 < self.backBufferW_) (hH : 0 < self.backBufferH_) :
    ∃ next, self.BeginFrame mapResult r g b a = .ok next ∧
      next.g_ScreenCB =
        some { screenSize := ((self.backBufferW_ : ℚ), (self.backBufferH_ : ℚ)) } ∧
      (∀ vtx : VertexPTC, next.vertexStage vtx =
        some { pos := (vtx.x / ((self.backBufferW_ : ℚ) / 2) - 1,
                       -(vtx.y / ((self.backBufferH_ : ℚ) / 2) - 1), 0, 1),
               uv := (vtx.u, vtx.v) }) ∧
      (∀ u v : ℚ, (next.vertexStage ⟨0, 0, u, v⟩).map VSOut.pos = some (-1, 1, 0, 1)) ∧
      (∀ u v : ℚ, (next.vertexStage ⟨(self.backBufferW_ : ℚ), (self.backBufferH_ : ℚ), u, v⟩).map
          VSOut.pos = some (1, -1, 0, 1)) ∧
      (∀ u v : ℚ, (next.vertexStage
          ⟨(self.backBufferW_ : ℚ) / 2, (self.backBufferH_ : ℚ) / 2, u, v⟩).map
          VSOut.pos = some (0, 0, 0, 1)) ∧
      (∀ vtx : VertexPTC, 0 ≤ vtx.x → vtx.x ≤ (self.backBufferW_ : ℚ) →
        0 ≤ vtx.y → vtx.y ≤ (self.backBufferH_ : ℚ) →
        ∃ out, next.vertexStage vtx = some out ∧
          -1 ≤ out.pos.1 ∧ out.pos.1 ≤ 1 ∧ -1 ≤ out.pos.2.1 ∧ out.pos.2.1 ≤ 1) := by
  have hWq : (0 : ℚ) < (self.backBufferW_ : ℚ) := by exact_mod_cast hW
  have hHq : (0 : ℚ) < (self.backBufferH_ : ℚ) := by exact_mod_cast hH
  have hW2 : (self.backBufferW_ : ℚ) * (1 / 2) = (self.backBufferW_ : ℚ) / 2 := by ring
  have hH2 : (self.backBufferH_ : ℚ) * (1 / 2) = (self.backBufferH_ : ℚ) / 2 := by ring
  have hW0 : (self.backBufferW_ : ℚ) / 2 ≠ 0 := by positivity
  have hH0 : (self.backBufferH_ : ℚ) / 2 ≠ 0 := by positivity
  refine ⟨_, BeginFrame_ok self mapResult r g b a hmap, rfl, ?_, ?_, ?_, ?_, ?_⟩
  · intro vtx
    simp only [D3D11Renderer.vertexStage, VSMain, Option.map_some', hW2, hH2]
  · intro u v
    simp [D3D11Renderer.vertexStage, VSMain]
  · intro u v
    simp only [D3D11Renderer.vertexStage, VSMain, Option.map_some', hW2, hH2]
    have e1 : (self.backBufferW_ : ℚ) / ((self.backBufferW_ : ℚ) / 2) = 2 := by
      field_simp
    have e2 : (self.backBufferH_ : ℚ) / ((self.backBufferH_ : ℚ) / 2) = 2 := by
      field_simp
    rw [e1, e2]
    norm_num
  · intro u v
    simp only [D3D11Renderer.vertexStage, VSMain, Option.map_some', hW2, hH2]
    rw [div_self hW0, div_self hH0]
    norm_num
  · intro vtx hx0 hx1 hy0 hy1
    refine ⟨_, rfl, ?_⟩
    have hx := ndc_range _ vtx.x hWq hx0 hx1
    have hy := ndc_range _ vtx.y hHq hy0 hy1
    simp only [VSMain]
    refine ⟨hx.1, hx.2, ?_, ?_⟩
    · linarith [hy.2]
    · linarith [hy.1]

/-- Instance of C9: a renderer whose back buffer is 1280x720; after
`BeginFrame` the pixel (640, 360) is mapped to the origin. -/
theorem BeginFrame_pixel_to_ndc_witness :
    ∃ next, D3D11Renderer.BeginFrame { backBufferW_ := 1280, backBufferH_ := 720 } 0
        (7 / 100) (8 / 100) (1 / 10) 1 = .ok next ∧
      next.g_ScreenCB = some { screenSize := (((1280 : Int) : ℚ), ((720 : Int) : ℚ)) } ∧
      (next.vertexStage ⟨((1280 : Int) : ℚ) / 2, ((720 : Int) : ℚ) / 2, 0, 0⟩).map VSOut.pos
        = some (0, 0, 0, 1) :=
  have h := BeginFrame_pixel_to_ndc { backBufferW_ := 1280, backBufferH_ := 720 } 0
    (7 / 100) (8 / 100) (1 / 10) 1 (by decide) (by decide) (by decide)
  h.elim fun next hn => ⟨next, hn.1, hn.2.1, hn.2.2.2.2.2.1 0 0⟩

/-- C10: on a renderer built by the constructor and used through any calls, for
every `x, y, w, h`, `DrawQuad` and `DrawTexturedQuad` (when `Map` succeeds) both
overwrite the vertex buffer with `(x, y)` uv `(0,0)`, `(x+w, y)` uv `(1,0)`,
`(x+w, y+h)` uv `(1,1)`, `(x, y+h)` uv `(0,1)`, and each issues exactly one
`DrawIndexed(6, 0, 0)` over the index buffer `{0,1,2,0,2,3}`, which assembles the
two triangles (0,1,2) and (0,2,3) over those four corners. -/
theorem DrawQuad_vertices (dev : DeviceResults) (w0 h0 : Int) (r0 self : D3D11Renderer)
    (cs : List (Int × RenderCall))
    (hnew : D3D11Renderer.new dev w0 h0 = .ok r0) (hcs : r0.calls cs = .ok self)
    (mapResult : Int) (x y w h : ℚ) (texture : Nat) (hmap : FAILED mapResult = false) :
    ∃ q t, self.DrawQuad mapResult x y w h = .ok q ∧
      self.DrawTexturedQuad mapResult x y w h texture = .ok t ∧
      q.vb_ = [⟨x, y, 0, 0⟩, ⟨x + w, y, 1, 0⟩, ⟨x + w, y + h, 1, 1⟩, ⟨x, y + h, 0, 1⟩] ∧
      t.vb_ = q.vb_ ∧
      q.context_ = self.context_ ++
        [ContextCall.PSSetShader PixelShader.psColor, ContextCall.DrawIndexed 6 0 0] ∧
      t.context_ = self.context_ ++
        [ContextCall.PSSetShader PixelShader.psTex, ContextCall.PSSetShaderResources texture,
         ContextCall.PSSetSamplers, ContextCall.DrawIndexed 6 0 0] ∧
      q.ib_ = [0, 1, 2, 0, 2, 3] ∧ t.ib_ = [0, 1, 2, 0, 2, 3] ∧
      q.assemble 6 0 0 =
        [(some ⟨x, y, 0, 0⟩, some ⟨x + w, y, 1, 0⟩, some ⟨x + w, y + h, 1, 1⟩),
         (some ⟨x, y, 0, 0⟩, some ⟨x + w, y + h, 1, 1⟩, some ⟨x, y + h, 0, 1⟩)] ∧
      t.assemble 6 0 0 = q.assemble 6 0 0 := by
  have hib : self.ib_ = [0, 1, 2, 0, 2, 3] := by
    rw [calls_ib cs r0 self hcs, new_ib dev w0 h0 r0 hnew]
  refine ⟨{ self with
      vb_ := [⟨x, y, 0, 0⟩, ⟨x + w, y, 1, 0⟩, ⟨x + w, y + h, 1, 1⟩, ⟨x, y + h, 0, 1⟩],
      context_ := self.context_ ++
        [ContextCall.PSSetShader PixelShader.psColor, ContextCall.DrawIndexed 6 0 0] },
    { self with
      vb_ := [⟨x, y, 0, 0⟩, ⟨x + w, y, 1, 0⟩, ⟨x + w, y + h, 1, 1⟩, ⟨x, y + h, 0, 1⟩],
      context_ := self.context_ ++
        [ContextCall.PSSetShader PixelShader.psTex, ContextCall.PSSetShaderResources texture,
         ContextCall.PSSetSamplers, ContextCall.DrawIndexed 6 0 0] },
    ?_, ?_, rfl, rfl, rfl, rfl, hib, hib, ?_, ?_⟩
  · simp [D3D11Renderer.DrawQuad, ThrowIfFailed, hmap, bind, Except.bind, pure, Except.pure]
  · simp [D3D11Renderer.DrawTexturedQuad, ThrowIfFailed, hmap, bind, Except.bind, pure,
      Except.pure]
  · simp [D3D11Renderer.assemble, hib, triangleList]
  · simp [D3D11Renderer.assemble, hib, triangleList]

/-- Instance of C10: the 1280x720 renderer after its constructor and one
`BeginFrame`, drawing the 96x96 quad at (200, 200). -/
theorem DrawQuad_vertices_witness :
    ∃ self q t,
      (D3D11Renderer.new {} 1280 720 >>= fun r0 =>
        r0.calls [(0, RenderCall.BeginFrame 0 0 0 1)]) = .ok self ∧
      self.DrawQuad 0 200 200 96 96 = .ok q ∧
      self.DrawTexturedQuad 0 200 200 96 96 7 = .ok t ∧
      q.vb_ = [⟨200, 200, 0, 0⟩, ⟨200 + 96, 200, 1, 0⟩, ⟨200 + 96, 200 + 96, 1, 1⟩,
               ⟨200, 200 + 96, 0, 1⟩] ∧
      t.vb_ = q.vb_ ∧ q.ib_ = [0, 1, 2, 0, 2, 3] :=
  have hnew : D3D11Renderer.new {} 1280 720 = .ok
      { backBufferW_ := 1280, backBufferH_ := 720,
        viewport_ := { Width := ((1280 : Int) : ℚ), Height := ((720 : Int) : ℚ), MaxDepth := 1 },
        vb_ := [⟨0, 0, 0, 0⟩, ⟨96, 0, 1, 0⟩, ⟨96, 96, 1, 1⟩, ⟨0, 96, 0, 1⟩],
        ib_ := [0, 1, 2, 0, 2, 3],
        context_ := [ContextCall.RSSetViewports
          { Width := ((1280 : Int) : ℚ), Height := ((720 : Int) : ℚ), MaxDepth := 1 }] } := rfl
  have hcs := BeginFrame_ok
      { backBufferW_ := 1280, backBufferH_ := 720,
        viewport_ := { Width := ((1280 : Int) : ℚ), Height := ((720 : Int) : ℚ), MaxDepth := 1 },
        vb_ := [⟨0, 0, 0, 0⟩, ⟨96, 0, 1, 0⟩, ⟨96, 96, 1, 1⟩, ⟨0, 96, 0, 1⟩],
        ib_ := [0, 1, 2, 0, 2, 3],
        context_ := [ContextCall.RSSetViewports
          { Width := ((1280 : Int) : ℚ), Height := ((720 : Int) : ℚ), MaxDepth := 1 }] }
      0 0 0 0 1 rfl
  have hrun : D3D11Renderer.calls _ [(0, RenderCall.BeginFrame 0 0 0 1)] = .ok _ := by
    simp only [D3D11Renderer.calls, D3D11Renderer.call, hcs]
    rfl
  (DrawQuad_vertices {} 1280 720 _ _ [(0, RenderCall.BeginFrame 0 0 0 1)] hnew hrun
      0 200 200 96 96 7 rfl).elim fun q hq => hq.elim fun t ht =>
    ⟨_, q, t, by rw [hnew]; exact hrun, ht.1, ht.2.1, ht.2.2.1, ht.2.2.2.1, ht.2.2.2.2.2.2.1⟩

/-! ## `CreateWICTextureFromFile` and `D3D11Renderer::LoadTextureFromFile` -/

theorem CreateWICTextureFromFile_failed_iff (factory : Nat) (wic : WICResults)
    (filename : String) (textureOut srvOut : Option Nat) :
    FAILED (CreateWICTextureFromFile factory wic filename textureOut srvOut).hr =
      wic.stepFails factory := by
  unfold CreateWICTextureFromFile WICResults.stepFails
  split_ifs with h0 h1 h2 h3 h4 h5 h6 h7 <;>
    simp_all [E_FAIL, S_OK, FAILED]

theorem CreateWICTextureFromFile_srvOut (factory : Nat) (wic : WICResults)
    (filename : String) (textureOut : Option Nat) (srv : Nat)
    (h : wic.stepFails factory = false) :
    (CreateWICTextureFromFile factory wic filename textureOut (some srv)).srvOut
      = some wic.srv := by
  simp only [WICResults.stepFails, Bool.or_eq_false_iff, decide_eq_false_iff_not] at h
  obtain ⟨⟨⟨⟨⟨⟨⟨h0, h1⟩, h2⟩, h3⟩, h4⟩, h5⟩, h6⟩, h7⟩ := h
  simp [CreateWICTextureFromFile, h0, h1, h2, h3, h4, h5, h6, h7]

/-- C11: `D3D11Renderer::LoadTextureFromFile` always returns a pointer and never
an error.  The loader `CreateWICTextureFromFile` reports a failure exactly when
some step fails (codec factory unavailable, decoder creation, frame read,
converter creation or initialisation, pixel copy, texture or view creation), and
then the pointer returned is null; a non-null pointer is returned only when the
loader returns success, and, the device storing a non-null view whenever view
creation succeeds, whenever the loader returns success. -/
theorem LoadTextureFromFile_null_iff_failure (self : D3D11Renderer) (factory : Nat)
    (wic : WICResults) (path : String) :
    ∃ p : Nat, self.LoadTextureFromFile factory wic path = .ok p ∧
      (FAILED (CreateWICTextureFromFile factory wic path none (some 0)).hr = true ↔
        wic.stepFails factory = true) ∧
      (FAILED (CreateWICTextureFromFile factory wic path none (some 0)).hr = true → p = 0) ∧
      (p ≠ 0 → FAILED (CreateWICTextureFromFile factory wic path none (some 0)).hr = false) ∧
      (wic.Conforms →
        (p ≠ 0 ↔ FAILED (CreateWICTextureFromFile factory wic path none (some 0)).hr = false)) := by
  have hiff := CreateWICTextureFromFile_failed_iff factory wic path none (some 0)
  cases hf : FAILED (CreateWICTextureFromFile factory wic path none (some 0)).hr
  · have hs : wic.stepFails factory = false := by rw [← hiff, hf]
    have hsrv := CreateWICTextureFromFile_srvOut factory wic path none 0 hs
    have h7 : FAILED wic.CreateShaderResourceView = false := by
      simp only [WICResults.stepFails, Bool.or_eq_false_iff] at hs
      exact hs.2
    refine ⟨wic.srv, ?_, ?_, ?_, ?_, ?_⟩
    · simp [D3D11Renderer.LoadTextureFromFile, hf, hsrv, pure, Except.pure]
    · rw [hs]
    · intro h; cases h
    · intro _; rfl
    · intro hc
      exact ⟨fun _ => rfl, fun _ => hc h7⟩
  · refine ⟨0, ?_, ?_, ?_, ?_, ?_⟩
    · simp [D3D11Renderer.LoadTextureFromFile, hf, pure, Except.pure]
    · rw [← hiff, hf]
    · intro _; rfl
    · intro h; exact absurd rfl h
    · intro _
      exact ⟨fun h => absurd rfl h, fun h => by cases h⟩

/-- Instances of C11: with every step succeeding the view pointer 1 is returned;
with a decoder failure (a missing file) null is returned. -/
theorem LoadTextureFromFile_null_iff_failure_witness :
    (∃ p : Nat, D3D11Renderer.LoadTextureFromFile {} 0 {} "assets/player.png" = .ok p ∧
      p ≠ 0) ∧
    (∃ p : Nat, D3D11Renderer.LoadTextureFromFile {} 0
        { CreateDecoderFromFilename := -2147024894 } "assets/player.png" = .ok p ∧ p = 0) :=
  ⟨(LoadTextureFromFile_null_iff_failure {} 0 {} "assets/player.png").elim fun p hp =>
      ⟨p, hp.1, (hp.2.2.2.2 (by decide)).2 (by decide)⟩,
   (LoadTextureFromFile_null_iff_failure {} 0
      { CreateDecoderFromFilename := -2147024894 } "assets/player.png").elim fun p hp =>
      ⟨p, hp.1, hp.2.2.1 (by decide)⟩⟩

/-! ## `wWinMain` -/

theorem CreateSwapChainAndTargets_ok (r r' : D3D11Renderer) (dev : DeviceResults) (w h : Int)
    (hr : r.CreateSwapChainAndTargets dev w h = .ok r') :
    FAILED dev.QueryDXGIDevice = false ∧ FAILED dev.GetAdapter = false ∧
    FAILED dev.GetParent = false ∧ FAILED dev.CreateSwapChain = false ∧
    FAILED dev.GetBuffer = false ∧ FAILED dev.CreateRenderTargetView = false := by
  simp only [D3D11Renderer.CreateSwapChainAndTargets, ThrowIfFailed_bind] at hr
  obtain ⟨h1, h2, h3, h4, h5, h6, -⟩ := hr
  exact ⟨h1, h2, h3, h4, h5, h6⟩

theorem CreatePipeline_ok (r r' : D3D11Renderer) (dev : DeviceResults)
    (hr : r.CreatePipeline dev = .ok r') :
    FAILED dev.CreateVertexBuffer = false ∧ FAILED dev.CreateIndexBuffer = false ∧
    FAILED dev.CompileVS.hr = false ∧ FAILED dev.CreateVertexShader = false ∧
    FAILED dev.CreateInputLayout = false ∧ FAILED dev.CompilePSColor.hr = false ∧
    FAILED dev.CreatePixelShaderColor = false ∧ FAILED dev.CompilePSTex.hr = false ∧
    FAILED dev.CreatePixelShaderTex = false ∧ FAILED dev.CreateScreenCB = false ∧
    FAILED dev.CreateSamplerState = false := by
  simp only [D3D11Renderer.CreatePipeline, ThrowIfFailed_bind, CompileShader_bind] at hr
  obtain ⟨h1, h2, h3, h4, h5, h6, h7, h8, h9, h10, h11, -⟩ := hr
  exact ⟨h1, h2, h3, h4, h5, h6, h7, h8, h9, h10, h11⟩

theorem new_ok_none_failed (dev : DeviceResults) (w h : Int) (r : D3D11Renderer)
    (hr : D3D11Renderer.new dev w h = .ok r) : dev.anyFailed = false := by
  simp only [D3D11Renderer.new, ThrowIfFailed_bind] at hr
  obtain ⟨h0, hr⟩ := hr
  cases hs : D3D11Renderer.CreateSwapChainAndTargets
      { backBufferW_ := w, backBufferH_ := h } dev w h with
  | error e => rw [hs] at hr; simp [bind, Except.bind] at hr
  | ok r1 =>
    rw [hs] at hr
    have hp : r1.CreatePipeline dev = .ok r := hr
    obtain ⟨a1, a2, a3, a4, a5, a6⟩ := CreateSwapChainAndTargets_ok _ _ _ _ _ hs
    obtain ⟨b1, b2, b3, b4, b5, b6, b7, b8, b9, b10, b11⟩ := CreatePipeline_ok _ _ _ hp
    simp [DeviceResults.anyFailed, h0, a1, a2, a3, a4, a5, a6, b1, b2, b3, b4, b5, b6, b7, b8,
      b9, b10, b11]

theorem new_error_of_anyFailed (dev : DeviceResults) (w h : Int)
    (hf : dev.anyFailed = true) : ∃ what, D3D11Renderer.new dev w h = .error what := by
  cases hn : D3D11Renderer.new dev w h with
  | error what => exact ⟨what, rfl⟩
  | ok r =>
    rw [new_ok_none_failed dev w h r hn] at hf
    cases hf

theorem dialogs_cleanup (coHr : Int) : dialogs (cleanup coHr) = 0 := by
  unfold cleanup dialogs
  split_ifs <;> rfl

/-- C12, amended: every fatal startup failure in `wWinMain` (window class
registration, window creation, or a failed call in the renderer constructor:
device creation, swap-chain and render-target creation, shader compilation,
buffer, shader, layout and sampler creation) ends the process with status -1,
whatever events would follow.  A failure in the renderer constructor first
shows exactly one message dialog, whose text is that of the exception; a failed
window class registration or window creation shows no dialog. -/
theorem wWinMain_startup_failure (os : StartupResults) (events : List PumpEvent)
    (hfail : os.RegisterClassEx = 0 ∨ os.CreateWindow = 0 ∨ os.device.anyFailed = true) :
    ∃ exit, wWinMain os events = some exit ∧ exit.status = -1 ∧ exit.status ≠ 0 ∧
      dialogs exit.calls = (if os.RegisterClassEx = 0 ∨ os.CreateWindow = 0 then 0 else 1) ∧
      (os.RegisterClassEx ≠ 0 → os.CreateWindow ≠ 0 →
        ∃ what, D3D11Renderer.new os.device 1280 720 = .error what ∧
          exit.calls =
            [WinCall.MessageBoxA what "MiniGame2D - Error"] ++ cleanup os.CoInitializeEx) := by
  by_cases h1 : os.RegisterClassEx = 0
  · refine ⟨{ status := -1, calls := [] }, ?_, rfl, by simp, ?_, fun h => absurd h1 h⟩
    · simp [wWinMain, h1]
    · simp [h1, dialogs]
  · by_cases h2 : os.CreateWindow = 0
    · refine ⟨{ status := -1, calls := cleanup os.CoInitializeEx }, ?_, rfl, by simp, ?_,
        fun _ h => absurd h2 h⟩
      · simp [wWinMain, h1, h2]
      · simp [h2, dialogs_cleanup]
    · have h3 : os.device.anyFailed = true := by
        rcases hfail with h | h | h
        · exact absurd h h1
        · exact absurd h h2
        · exact h
      obtain ⟨what, hw⟩ := new_error_of_anyFailed os.device 1280 720 h3
      refine ⟨{ status := -1,
                calls := [WinCall.MessageBoxA what "MiniGame2D - Error"] ++
                  cleanup os.CoInitializeEx }, ?_, rfl, by simp, ?_,
        fun _ _ => ⟨what, hw, rfl⟩⟩
      · simp [wWinMain, h1, h2, hw]
      · have hc := dialogs_cleanup os.CoInitializeEx
        simp only [dialogs] at hc ⊢
        simp [h1, h2, List.countP_cons, hc]

/-- Instance of C12 (amended): device creation fails with `E_FAIL`; the process
shows one dialog with the text of the exception and returns -1. -/
theorem wWinMain_startup_failure_witness :
    ∃ exit, wWinMain { device := { D3D11CreateDevice := E_FAIL } } [] = some exit ∧
      exit.status = -1 ∧ dialogs exit.calls = 1 ∧
      exit.calls = [WinCall.MessageBoxA "D3D11CreateDevice failed" "MiniGame2D - Error"] ++
        cleanup 0 :=
  (wWinMain_startup_failure { device := { D3D11CreateDevice := E_FAIL } } []
      (Or.inr (Or.inr (by decide)))).elim fun exit h =>
    ⟨exit, h.1, h.2.1, h.2.2.2.1,
     (h.2.2.2.2 (by decide) (by decide)).elim fun what hw => by
       have e : what = "D3D11CreateDevice failed" := by
         have h0 : D3D11Renderer.new { D3D11CreateDevice := E_FAIL } 1280 720
             = .error "D3D11CreateDevice failed" := rfl
         rw [h0] at hw
         exact (Except.error.inj hw.1).symm
       rw [hw.2, e]⟩

/-- C12 as stated fails: when window class registration fails, `wWinMain`
returns -1 having made no call at all, so no message dialog is shown; when
window creation fails it returns -1 after the clean-up calls only. -/
theorem wWinMain_window_failure_no_dialog :
    wWinMain { RegisterClassEx := 0 } [] = some { status := -1, calls := [] } ∧
    wWinMain { CreateWindow := 0 } [] =
      some { status := -1, calls := [WinCall.UnregisterClass, WinCall.CoUninitialize] } ∧
    ¬ (∃ exit, wWinMain { RegisterClassEx := 0 } [] = some exit ∧
        exit.status ≠ 0 ∧ dialogs exit.calls = 1) := by
  have h1 : wWinMain { RegisterClassEx := 0 } [] = some { status := -1, calls := [] } := by
    simp [wWinMain]
  refine ⟨h1, ?_, ?_⟩
  · simp [wWinMain, cleanup, FAILED]
  · rintro ⟨exit, he, -, hd⟩
    rw [h1] at he
    cases he
    simp [dialogs] at hd

/-! ## `App::Update` followed by `App::Render` -/

theorem Render_quad (b : App) (c : Nat × RenderCall) (hc : c ∈ b.Render.2)
    (q : ℚ × ℚ × ℚ × ℚ) (hq : quadOf c.2 = some q) :
    q = (b.state_.playerX, b.state_.playerY, 96, 96) := by
  by_cases h0 : b.renderer_ = 0
  · rw [Render_calls_of_no_renderer b h0] at hc
    cases hc
  · rw [Render_calls_of_renderer b h0] at hc
    simp only [List.mem_cons, List.mem_singleton, List.not_mem_nil, or_false] at hc
    rcases hc with rfl | rfl | rfl
    · cases hq
    · by_cases ht : (b.hasTexture_ && b.playerTex_ != 0) = true
      · simp only [ht, if_true, quadOf] at hq
        exact (Option.some.inj hq).symm
      · simp only [ht, if_false, quadOf] at hq
        exact (Option.some.inj hq).symm
    · cases hq

theorem Render_draws_quad (b : App) (h0 : b.renderer_ ≠ 0) :
    ∃ c ∈ b.Render.2, quadOf c.2 = some (b.state_.playerX, b.state_.playerY, 96, 96) := by
  rw [Render_calls_of_renderer b h0]
  refine ⟨_, List.mem_cons_of_mem _ (List.mem_cons_self _ _), ?_⟩
  show quadOf (if (b.hasTexture_ && b.playerTex_ != 0) = true then _ else _) = _
  split_ifs <;> rfl

/-- C13: for width, height >= 64, every quad that `App::Render` draws right
after `App::Update` is 96 by 96, has its top-left corner in `[0, width-64] x
[0, height-64]`, so inside the window, its right edge at most `width+32` and its
bottom edge at most `height+32`; with a renderer attached a quad is drawn, and
when the position was at or beyond `(width-64, height-64)` the quad is at
`(width-64, height-64)` and both bounds are attained; at 1280x720 that quad
spans x in [1216, 1312] and y in [656, 752]. -/
theorem Render_after_Update_quad (a : App) (dt : ℚ)
    (hw : 64 ≤ a.cfg_.width) (hh : 64 ≤ a.cfg_.height) :
    (∀ c ∈ (a.Update dt).Render.2, ∀ x y w h : ℚ, quadOf c.2 = some (x, y, w, h) →
      w = 96 ∧ h = 96 ∧
      0 ≤ x ∧ x ≤ (a.cfg_.width : ℚ) - 64 ∧ x < (a.cfg_.width : ℚ) ∧
      0 ≤ y ∧ y ≤ (a.cfg_.height : ℚ) - 64 ∧ y < (a.cfg_.height : ℚ) ∧
      x + w ≤ (a.cfg_.width : ℚ) + 32 ∧ y + h ≤ (a.cfg_.height : ℚ) + 32) ∧
    (a.renderer_ ≠ 0 → ∃ c ∈ (a.Update dt).Render.2, ∃ x y : ℚ,
      quadOf c.2 = some (x, y, 96, 96)) ∧
    (a.renderer_ ≠ 0 → (a.cfg_.width : ℚ) - 64 ≤ a.state_.playerX →
      (a.cfg_.height : ℚ) - 64 ≤ a.state_.playerY →
      ∃ c ∈ (a.Update dt).Render.2, ∃ x y w h : ℚ, quadOf c.2 = some (x, y, w, h) ∧
        x = (a.cfg_.width : ℚ) - 64 ∧ y = (a.cfg_.height : ℚ) - 64 ∧
        x + w = (a.cfg_.width : ℚ) + 32 ∧ y + h = (a.cfg_.height : ℚ) + 32) ∧
    (a.renderer_ ≠ 0 → a.cfg_.width = 1280 → a.cfg_.height = 720 →
      1216 ≤ a.state_.playerX → 656 ≤ a.state_.playerY →
      ∃ c ∈ (a.Update dt).Render.2, ∃ x y w h : ℚ, quadOf c.2 = some (x, y, w, h) ∧
        x = 1216 ∧ x + w = 1312 ∧ y = 656 ∧ y + h = 752) := by
  have hbx := bound_nonneg _ hw
  have hby := bound_nonneg _ hh
  have hx := clamp_mem a.state_.playerX 0 _ hbx
  have hy := clamp_mem a.state_.playerY 0 _ hby
  have hsx : (a.Update dt).state_.playerX = clamp a.state_.playerX 0 ((a.cfg_.width : ℚ) - 64) :=
    rfl
  have hsy : (a.Update dt).state_.playerY = clamp a.state_.playerY 0 ((a.cfg_.height : ℚ) - 64) :=
    rfl
  have htop : ∀ v b : ℚ, 0 ≤ b → b ≤ v → clamp v 0 b = b := by
    intro v b hb hv
    rw [clamp_eq_returns v 0 b hb, if_neg (not_lt.mpr (le_trans hb hv))]
    split_ifs with h
    · rfl
    · exact le_antisymm (not_lt.mp h) hv
  have hatt : a.renderer_ ≠ 0 → (a.cfg_.width : ℚ) - 64 ≤ a.state_.playerX →
      (a.cfg_.height : ℚ) - 64 ≤ a.state_.playerY →
      ∃ c ∈ (a.Update dt).Render.2, ∃ x y w h : ℚ, quadOf c.2 = some (x, y, w, h) ∧
        x = (a.cfg_.width : ℚ) - 64 ∧ y = (a.cfg_.height : ℚ) - 64 ∧
        x + w = (a.cfg_.width : ℚ) + 32 ∧ y + h = (a.cfg_.height : ℚ) + 32 := by
    intro h0 h1 h2
    obtain ⟨c, hc, hq⟩ := Render_draws_quad (a.Update dt) h0
    rw [hsx, hsy, htop _ _ hbx h1, htop _ _ hby h2] at hq
    exact ⟨c, hc, _, _, _, _, hq, rfl, rfl, by ring, by ring⟩
  refine ⟨?_, ?_, hatt, ?_⟩
  · intro c hc x y w h hq
    have e := Render_quad (a.Update dt) c hc _ hq
    rw [hsx, hsy] at e
    simp only [Prod.mk.injEq] at e
    obtain ⟨rfl, rfl, rfl, rfl⟩ := e
    refine ⟨rfl, rfl, hx.1, hx.2, ?_, hy.1, hy.2, ?_, ?_, ?_⟩ <;> linarith [hx.2, hy.2]
  · intro h0
    obtain ⟨c, hc, hq⟩ := Render_draws_quad (a.Update dt) h0
    exact ⟨c, hc, _, _, hq⟩
  · intro h0 e1 e2 h1 h2
    have h1' : (a.cfg_.width : ℚ) - 64 ≤ a.state_.playerX := by
      rw [e1]; norm_num; exact h1
    have h2' : (a.cfg_.height : ℚ) - 64 ≤ a.state_.playerY := by
      rw [e2]; norm_num; exact h2
    obtain ⟨c, hc, x, y, w, h, hq, ex, ey, exw, eyh⟩ := hatt h0 h1' h2'
    rw [e1] at ex exw
    rw [e2] at ey eyh
    refine ⟨c, hc, x, y, w, h, hq, ?_, ?_, ?_, ?_⟩
    · rw [ex]; norm_num
    · rw [exw]; norm_num
    · rw [ey]; norm_num
    · rw [eyh]; norm_num

/-- Instance of C13: the default 1280x720 `App` with renderer 1 attached and the
position driven to (2000, 2000); after `Update` the quad drawn spans x in
[1216, 1312] and y in [656, 752]. -/
theorem Render_after_Update_quad_witness :
    ∃ c ∈ ((((App.new {}).SetRenderer 1).SetState { playerX := 2000, playerY := 2000 }).Update
        0).Render.2,
      ∃ x y w h : ℚ, quadOf c.2 = some (x, y, w, h) ∧
        x = 1216 ∧ x + w = 1312 ∧ y = 656 ∧ y + h = 752 :=
  (Render_after_Update_quad
      (((App.new {}).SetRenderer 1).SetState { playerX := 2000, playerY := 2000 }) 0
      (by decide) (by decide)).2.2.2 (by decide) rfl rfl
    (by norm_num [App.new, App.SetRenderer, App.SetState])
    (by norm_num [App.new, App.SetRenderer, App.SetState])

/-- C14: `App::Update` gives the same object for every `dt` and never changes
`speed`; for width, height >= 64 it is idempotent: `Update(dt2)` after
`Update(dt1)` gives what `Update(dt1)` alone gives. -/
theorem Update_idempotent (a : App) (dt1 dt2 : ℚ)
    (hw : 64 ≤ a.cfg_.width) (hh : 64 ≤ a.cfg_.height) :
    a.Update dt1 = a.Update dt2 ∧
    (a.Update dt1).Update dt2 = a.Update dt1 ∧
    ((a.Update dt1).Update dt2).state_ = (a.Update dt1).state_ ∧
    (a.Update dt1).state_.speed = a.state_.speed := by
  have hx := clamp_mem a.state_.playerX 0 _ (bound_nonneg _ hw)
  have hy := clamp_mem a.state_.playerY 0 _ (bound_nonneg _ hh)
  have h2 : (a.Update dt1).Update dt2 = a.Update dt1 := by
    simp only [App.Update, clamp_of_mem _ _ _ hx.1 hx.2, clamp_of_mem _ _ _ hy.1 hy.2]
  exact ⟨rfl, h2, by rw [h2], rfl⟩

/-- Instance of C14: the default 1280x720 `App` with the position driven to
(2000, -5), updated with `dt = 1/60` and then with `dt = 5`. -/
theorem Update_idempotent_witness :
    (((App.new {}).SetState { playerX := 2000, playerY := -5 }).Update (1 / 60)).Update 5 =
      ((App.new {}).SetState { playerX := 2000, playerY := -5 }).Update (1 / 60) :=
  (Update_idempotent ((App.new {}).SetState { playerX := 2000, playerY := -5 }) (1 / 60) 5
    (by decide) (by decide)).2.1

end MiniGame
